import Mathlib

/-!
# Entity panel scripts: a shallow embedding and its verified properties

The development follows `static/js/entity-management.js` (the entity panel
controller) and `static/js/main.js` (the shared helpers).  The first part
models the JavaScript values and built-ins the two scripts rely on, the second
part the page and the functions of the scripts, the third part the theorems.
-/

set_option exponentiation.threshold 1100

namespace Sponsor

/-! ## JavaScript values -/

/-- A Number value.  A finite Number is kept by a decimal numeral:
`decimal neg m e` is the Number nearest to `(-1)^neg * m * 10^e`.  How the
mantissa of that Number is rounded is not represented; whether the numeral
rounds to zero or to an infinity is (`rounds_to_zero`, `overflows`). -/
inductive JSNumber where
  | nan
  | infinity (negative : Bool)
  | decimal (negative : Bool) (mantissa : Nat) (exponent : Int)
  deriving DecidableEq, Repr

namespace JSNumber

/-- The numeral `m * 10^e` is at least `2^1024 - 2^970`, the least magnitude
that rounds to an infinity. -/
def overflows (m : Nat) (e : Int) : Bool :=
  match e with
  | Int.ofNat k => decide (2 ^ 1024 - 2 ^ 970 ≤ m * 10 ^ k)
  | Int.negSucc k => decide ((2 ^ 1024 - 2 ^ 970) * 10 ^ (k + 1) ≤ m)

/-- The numeral `m * 10^e` is at most `2^(-1075)`, the greatest magnitude that
rounds to zero. -/
def rounds_to_zero (m : Nat) (e : Int) : Bool :=
  match e with
  | Int.ofNat k => decide (m * 10 ^ k = 0)
  | Int.negSucc k => decide (m * 2 ^ 1075 ≤ 10 ^ (k + 1))

/-- The Number `+0`, as written by the literal `0` in the scripts. -/
def zero : JSNumber := decimal false 0 0

/-- The Number is `+0` or `-0`. -/
def isZero : JSNumber → Bool
  | decimal _ m e => rounds_to_zero m e
  | _ => false

/-- The Number is neither `NaN` nor an infinity. -/
def isFinite : JSNumber → Bool
  | decimal _ m e => !overflows m e
  | _ => false

/-- The comparison `n > 0`. -/
def isPositive : JSNumber → Bool
  | nan => false
  | infinity neg => !neg
  | decimal neg m e => !neg && !rounds_to_zero m e

/-- The Number a numeral denotes, after the range check of the conversion:
out-of-range magnitudes become an infinity, vanishing ones a signed zero. -/
def round (neg : Bool) (m : Nat) (e : Int) : JSNumber :=
  if overflows m e then infinity neg
  else if rounds_to_zero m e then decimal neg 0 0
  else decimal neg m e

end JSNumber

/-- A primitive value, as a field of a JSON record or a local of the scripts. -/
inductive Prim where
  | undefined
  | null
  | bool (b : Bool)
  | number (n : JSNumber)
  | string (s : String)
  deriving DecidableEq, Repr

/-- The truth value of a primitive in a condition (`if (x)`, `!x`, `x || y`). -/
def Prim.truthy : Prim → Bool
  | Prim.undefined => false
  | Prim.null => false
  | Prim.bool b => b
  | Prim.number n => !(n == JSNumber.nan) && !n.isZero
  | Prim.string s => !(s == "")

/-- The operator `a || b`. -/
def Prim.or (a b : Prim) : Prim := if a.truthy then a else b

/-- A flat object: its own properties, the first binding of a name counts. -/
abbrev Record := List (String × Prim)

/-- The reading `r.key` of a property of a flat object; an absent property
reads as `undefined`. -/
def Record.get (r : Record) (key : String) : Prim :=
  (r.lookup key).getD Prim.undefined

/-- The assignment `r[key] = v`: overwrites an existing property in place,
appends a new one.  Assigning a primitive to `__proto__` changes nothing.
Properties are kept in the order of insertion; that an engine lists
integer-like names first is not represented. -/
def Record.set (r : Record) (key : String) (v : Prim) : Record :=
  if key = "__proto__" then r
  else if r.any (fun p => p.1 == key) then
    r.map (fun p => if p.1 == key then (key, v) else p)
  else r ++ [(key, v)]

/-- An element of a JSON array: a primitive or a flat object. -/
inductive Item where
  | prim (p : Prim)
  | object (fields : Record)
  deriving DecidableEq, Repr

/-- A parsed response body: a primitive, a flat object, or an array of
elements.  Deeper nesting is not represented. -/
inductive Value where
  | prim (p : Prim)
  | object (fields : Record)
  | array (items : List Item)
  deriving DecidableEq, Repr

/-- An array element seen as a value. -/
def Item.toValue : Item → Value
  | Item.prim p => Value.prim p
  | Item.object r => Value.object r

/-- The errors the scripts can meet: a `TypeError` (a property read from
`undefined` or `null`, a call of something that is no function, a request
that fails) and a `SyntaxError` (a body that is not JSON). -/
inductive JSError where
  | typeError
  | syntaxError
  deriving DecidableEq, Repr

/-- The reading `v.key` for the property names the scripts read (`count`,
`success`, `message`, `length` and the entity fields): reading from
`undefined` or `null` raises, a string and an array have a `length`, every
other absent property reads as `undefined`. -/
def Value.get (v : Value) (key : String) : Except JSError Prim :=
  match v with
  | Value.prim Prim.undefined => Except.error JSError.typeError
  | Value.prim Prim.null => Except.error JSError.typeError
  | Value.prim (Prim.string s) =>
    if key = "length" then
      Except.ok (Prim.number (JSNumber.decimal false s.utf16Length 0))
    else Except.ok Prim.undefined
  | Value.prim _ => Except.ok Prim.undefined
  | Value.object r => Except.ok (r.get key)
  | Value.array xs =>
    if key = "length" then
      Except.ok (Prim.number (JSNumber.decimal false xs.length 0))
    else Except.ok Prim.undefined

/-- The reading `entity.key` on an array element. -/
def Item.get (i : Item) (key : String) : Except JSError Prim :=
  i.toValue.get key

/-! ## Strings -/

/-- The code points `String.prototype.trim` strips: WhiteSpace (tab, vertical
tab, form feed, byte order mark and the space separators) and LineTerminator. -/
def isWhiteSpace (c : Char) : Bool :=
  c.toNat = 0x9 || c.toNat = 0xB || c.toNat = 0xC || c.toNat = 0x20 ||
  c.toNat = 0xA0 || c.toNat = 0x1680 || (0x2000 ≤ c.toNat && c.toNat ≤ 0x200A) ||
  c.toNat = 0x202F || c.toNat = 0x205F || c.toNat = 0x3000 || c.toNat = 0xFEFF ||
  c.toNat = 0xA || c.toNat = 0xD || c.toNat = 0x2028 || c.toNat = 0x2029

/-- The leading white space removed. -/
def trimStart (cs : List Char) : List Char := cs.dropWhile isWhiteSpace

/-- The trailing white space removed. -/
def trimEnd (cs : List Char) : List Char :=
  (cs.reverse.dropWhile isWhiteSpace).reverse

/-- The method `s.trim()`. -/
def trim (s : String) : String := String.mk (trimEnd (trimStart s.data))

/-- The method `s.includes(t)`. -/
def includes (s t : String) : Bool := decide (t.data <:+: s.data)

/-- A lower-casing of the ASCII letters, for the examples: it is what
`s.toLowerCase()` gives on an ASCII string. -/
def asciiLowerCase (s : String) : String := String.mk (s.data.map Char.toLower)

/-! ## Numerals: `parseFloat` and the conversion of a string to a Number -/

/-- The value of a run of decimal digits. -/
def digitsValue (ds : List Char) : Nat :=
  ds.foldl (fun n c => 10 * n + (c.toNat - 48)) 0

/-- An optional ExponentPart at the head of `cs`: the exponent read and what
follows it, or exponent `0` and `cs` itself when there is no complete
ExponentPart. -/
def scanExponent (cs : List Char) : Int × List Char :=
  match cs with
  | [] => (0, [])
  | c :: rest =>
    if c = 'e' ∨ c = 'E' then
      let signed : Bool × List Char :=
        match rest with
        | '+' :: r => (false, r)
        | '-' :: r => (true, r)
        | r => (false, r)
      let ds := signed.2.takeWhile Char.isDigit
      if ds = [] then (0, cs)
      else ((if signed.1 then -(digitsValue ds : Int) else (digitsValue ds : Int)),
            signed.2.dropWhile Char.isDigit)
    else (0, cs)

/-- The longest prefix of `cs` that is a StrUnsignedDecimalLiteral: `none`
for `Infinity`, else mantissa and decimal exponent; with what follows it. -/
def scanUnsigned (cs : List Char) : Option (Option (Nat × Int) × List Char) :=
  if "Infinity".data.isPrefixOf cs then some (none, cs.drop 8)
  else
    let ip := cs.takeWhile Char.isDigit
    match cs.dropWhile Char.isDigit with
    | '.' :: r =>
      let fp := r.takeWhile Char.isDigit
      if ip = [] ∧ fp = [] then none
      else
        let ex := scanExponent (r.dropWhile Char.isDigit)
        some (some (digitsValue (ip ++ fp), ex.1 - (fp.length : Int)), ex.2)
    | r =>
      if ip = [] then none
      else
        let ex := scanExponent r
        some (some (digitsValue ip, ex.1), ex.2)

/-- The longest prefix of `cs` that is a StrDecimalLiteral (an optional sign
and an unsigned literal), as the Number it denotes, with what follows it. -/
def scanStrDecimal (cs : List Char) : Option (JSNumber × List Char) :=
  let signed : Bool × List Char :=
    match cs with
    | '+' :: r => (false, r)
    | '-' :: r => (true, r)
    | r => (false, r)
  match scanUnsigned signed.2 with
  | none => none
  | some (none, rest) => some (JSNumber.infinity signed.1, rest)
  | some (some (m, e), rest) => some (JSNumber.round signed.1 m e, rest)

/-- The global `parseFloat` on a string: leading white space is skipped, the
longest numeric prefix is read, `NaN` when there is none. -/
def parseFloat (s : String) : JSNumber :=
  match scanStrDecimal (trimStart s.data) with
  | none => JSNumber.nan
  | some (n, _) => n

/-- The value of a run of digits in radix `b` (letters count from ten). -/
def radixValue (b : Nat) (ds : List Char) : Nat :=
  ds.foldl (fun n c =>
    b * n + (if c.isDigit then c.toNat - 48 else c.toLower.toNat - 87)) 0

/-- A NonDecimalIntegerLiteral (`0x`, `0o` or `0b` and at least one digit of
the radix) that is the whole of `cs`. -/
def scanRadix (cs : List Char) : Option Nat :=
  match cs with
  | '0' :: c :: ds =>
    if ds = [] then none
    else if (c = 'x' ∨ c = 'X') ∧
        ds.all (fun d => d.isDigit || ('a' ≤ d.toLower && d.toLower ≤ 'f')) then
      some (radixValue 16 ds)
    else if (c = 'o' ∨ c = 'O') ∧ ds.all (fun d => '0' ≤ d && d ≤ '7') then
      some (radixValue 8 ds)
    else if (c = 'b' ∨ c = 'B') ∧ ds.all (fun d => d = '0' || d = '1') then
      some (radixValue 2 ds)
    else none
  | _ => none

/-- The conversion of a string to a Number: white space around is dropped,
the empty string is `0`, a whole numeric literal its value, all else `NaN`. -/
def stringToNumber (s : String) : JSNumber :=
  let t := trimEnd (trimStart s.data)
  if t = [] then JSNumber.zero
  else
    match scanRadix t with
    | some n => JSNumber.round false n 0
    | none =>
      match scanStrDecimal t with
      | some (n, []) => n
      | _ => JSNumber.nan

/-- The conversion of a primitive to a Number. -/
def toNumber : Prim → JSNumber
  | Prim.undefined => JSNumber.nan
  | Prim.null => JSNumber.zero
  | Prim.bool b => JSNumber.decimal false (if b then 1 else 0) 0
  | Prim.number n => n
  | Prim.string s => stringToNumber s

/-! ## The page -/

/-- What the host page and the engine supply: the entity-type token, the
display name, the engine's conversion of a Number to text, its method
`toLowerCase` (the Unicode case mapping), and its HTML parser as far as
`showAlert` uses it: whether, in an element given this markup as `innerHTML`,
`querySelector(".close-alert")` finds an element. -/
structure Env where
  ENTITY_TYPE : String
  ENTITY_NAME : String
  numberToString : JSNumber → String
  toLowerCase : String → String
  hasCloseAlert : String → Bool

/-- The text of a primitive inside a template literal. -/
def Env.text (env : Env) : Prim → String
  | Prim.undefined => "undefined"
  | Prim.null => "null"
  | Prim.bool true => "true"
  | Prim.bool false => "false"
  | Prim.number n => env.numberToString n
  | Prim.string s => s

/-- A value inside a JSON request body. -/
inductive JSONValue where
  | null
  | bool (b : Bool)
  | number (n : JSNumber)
  | string (s : String)
  deriving DecidableEq, Repr

/-- The JSON form of a Number: `null` for `NaN` and the infinities, `0` for
both zeros. -/
def numberJSON (n : JSNumber) : JSONValue :=
  if n.isFinite then
    if n.isZero then JSONValue.number JSNumber.zero else JSONValue.number n
  else JSONValue.null

/-- The JSON form of one property: `undefined` is left out, a Number is
written as `numberJSON` says. -/
def stringifyValue : Prim → Option JSONValue
  | Prim.undefined => none
  | Prim.null => some JSONValue.null
  | Prim.bool b => some (JSONValue.bool b)
  | Prim.number n => some (numberJSON n)
  | Prim.string s => some (JSONValue.string s)

/-- The call `JSON.stringify(r)` on a flat object, kept as the JSON object the
produced text denotes. -/
def stringify (r : Record) : List (String × JSONValue) :=
  r.filterMap (fun p => (stringifyValue p.2).map (fun j => (p.1, j)))

/-- A request handed to `fetch`. -/
structure Request where
  url : String
  method : String
  headers : List (String × String)
  body : Option (List (String × JSONValue))
  deriving DecidableEq, Repr

/-- What the page does to the outside, in the order it happens: a request
issued, an alert banner inserted at the top of the main content (its class
and its markup), a confirmation dialog shown, a line on the error console. -/
inductive Event where
  | fetch (request : Request)
  | alert (className : String) (innerHTML : String)
  | confirm (message : String)
  | consoleError (message : String)
  deriving DecidableEq, Repr

/-- An operation suspended at its `await`, named by the function it resumes. -/
inductive Pending where
  | loadEntityCount
  | searchEntities
  | addEntity
  | loadAllEntities
  | deleteEntity
  deriving DecidableEq, Repr

/-- A control of the add form: its name, the value of its markup and its
current value. -/
structure FormField where
  name : String
  defaultValue : String
  value : String
  deriving DecidableEq, Repr

/-- The state of a page: the elements the controller reads and writes, the
global `currentEntities`, the suspended operations and the events so far. -/
structure Page where
  entityCount : String
  searchInput : String
  searchResults : String
  entitiesList : String
  addEntityForm : List FormField
  currentEntities : Value
  pending : List Pending
  log : List Event
  deriving DecidableEq, Repr

/-- How an awaited request settles: the parsed body, or the error `fetch` or
`response.json()` rejects with. -/
abbrev Outcome := Except JSError Value

/-- Appends an event to the log. -/
def Page.emit (s : Page) (e : Event) : Page := { s with log := s.log ++ [e] }

/-- The call `fetch(request)` followed by `await`: the request goes out and
the operation `k` is suspended until it settles. -/
def Page.fetch (s : Page) (request : Request) (k : Pending) : Page :=
  { s with log := s.log ++ [Event.fetch request], pending := s.pending ++ [k] }

/-! ## `main.js` -/

/-- The markup `showAlert` gives its banner: the message and a close button. -/
def banner (text : String) : String :=
  "\n        " ++ text ++ "\n        <button class=\"close-alert\">&times;</button>\n    "

/-- The function `showAlert(message, type)`: a banner of class
`alert alert-{type}` with the markup `banner` is inserted at the top of the
main content; then the close button is looked up in the banner to give it its
handler, which raises a `TypeError` when the markup of the message leaves no
element of class `close-alert` to find.  The result is the page and the error
raised, if any.  The removal of the banner, by the timer or the close button,
is not represented. -/
def showAlert (env : Env) (message : Prim) (type : String) (s : Page) :
    Page × Option JSError :=
  let innerHTML := banner (env.text message)
  let s1 := s.emit (Event.alert ("alert alert-" ++ type) innerHTML)
  if env.hasCloseAlert innerHTML then (s1, none) else (s1, some JSError.typeError)

/-! ## `entity-management.js` -/

/-- The strict comparison `x === 0`. -/
def strictEqualsZero : Prim → Bool
  | Prim.number n => n.isZero
  | _ => false

/-- The comparison `x > 0`. -/
def greaterThanZero (x : Prim) : Bool := (toNumber x).isPositive

/-- The synchronous part of `loadEntityCount`, up to its `await`. -/
def loadEntityCount (env : Env) (s : Page) : Page :=
  s.fetch ⟨"/api/" ++ env.ENTITY_TYPE ++ "/count", "GET", [], none⟩
    Pending.loadEntityCount

/-- The rest of `loadEntityCount`, once the request has settled. -/
def loadEntityCount_resume (env : Env) (o : Outcome) (s : Page) : Page :=
  let caught (s : Page) : Page :=
    s.emit (Event.consoleError ("Error loading " ++ env.ENTITY_TYPE ++ " count:"))
  match o with
  | Except.error _ => caught s
  | Except.ok data =>
    match data.get "count" with
    | Except.error _ => caught s
    | Except.ok count =>
      { s with entityCount := env.text (count.or (Prim.number JSNumber.zero)) }

/-- One statement `if (entity.key) { html += opening + entity.key + "</p>"; }`
of `createEntityCard`. -/
def appendField (env : Env) (entity : Item) (key opening : String) (html : String) :
    Except JSError String := do
  if (← entity.get key).truthy then
    return html ++ opening ++ env.text (← entity.get key) ++ "</p>"
  return html

/-- The function `createEntityCard(entity, showCreatedBy)`. -/
def createEntityCard (env : Env) (entity : Item) (showCreatedBy : Bool) :
    Except JSError String := do
  let html :=
    "\n        <div class=\"result-card\">\n            <h5>" ++
      env.text (← entity.get "name") ++
      "</h5>\n            <p><i class=\"fas fa-envelope\"></i> " ++
      env.text (← entity.get "email") ++ "</p>\n    "
  let html ← appendField env entity "company" "<p><i class=\"fas fa-building\"></i> " html
  let html ← appendField env entity "organization" "<p><i class=\"fas fa-university\"></i> " html
  let html ← appendField env entity "phone" "<p><i class=\"fas fa-phone\"></i> " html
  let html ← appendField env entity "partnership_type" "<p><i class=\"fas fa-handshake\"></i> " html
  let html ← appendField env entity "service_type" "<p><i class=\"fas fa-cogs\"></i> " html
  let html ← appendField env entity "participant_type" "<p><i class=\"fas fa-user-tag\"></i> " html
  let html ← appendField env entity "cost_estimate"
    "<p><i class=\"fas fa-dollar-sign\"></i> Cost: $" html
  let html ← appendField env entity "registration_fee"
    "<p><i class=\"fas fa-dollar-sign\"></i> Fee: $" html
  let html := html ++ "<p><i class=\"fas fa-calendar\"></i> Added: " ++
    env.text (← entity.get "created_at") ++ "</p>"
  let html ←
    if showCreatedBy then
      appendField env entity "created_by" "<p><i class=\"fas fa-user\"></i> By: " html
    else pure html
  return html ++ "\n            <button onclick=\"deleteEntity(\x27" ++
    env.text (← entity.get "_id") ++
    "\x27)\" class=\"btn btn-danger btn-sm\">\n                " ++
    "<i class=\"fas fa-trash\"></i> Delete\n            </button>\n        </div>\n    "

/-- The loop `entities.forEach(entity => html += createEntityCard(...))`:
only an array has a `forEach` to call. -/
def forEachCard (env : Env) (entities : Value) (showCreatedBy : Bool)
    (html : String) : Except JSError String :=
  match entities with
  | Value.array items =>
    items.foldlM
      (fun html entity => do
        let card ← createEntityCard env entity showCreatedBy
        pure (html ++ card))
      html
  | _ => Except.error JSError.typeError

/-- The function `displaySearchResults(entities)`. -/
def displaySearchResults (env : Env) (entities : Value) (s : Page) :
    Except JSError Page := do
  let length ← entities.get "length"
  if strictEqualsZero length then
    return { s with searchResults :=
      "<p class=\"no-results\">No " ++ env.ENTITY_TYPE ++
        " found matching your search.</p>" }
  let html ← forEachCard env entities false
    "<h4>Search Results:</h4><div class=\"results-grid\">"
  return { s with searchResults := html ++ "</div>" }

/-- The function `displayEntitiesList(entities)`. -/
def displayEntitiesList (env : Env) (entities : Value) (s : Page) :
    Except JSError Page := do
  let length ← entities.get "length"
  if strictEqualsZero length then
    return { s with entitiesList :=
      "<p class=\"no-results\">No " ++ env.ENTITY_TYPE ++ " found.</p>" }
  let html ← forEachCard env entities true
    ("<h4>All " ++ env.ENTITY_NAME ++ "s:</h4><div class=\"results-grid\">")
  return { s with entitiesList := html ++ "</div>" }

/-- The synchronous part of `searchEntities`, up to its `await`.  An error
raised outside a `try` block, or inside a `catch` block, ends the function (its
promise is rejected, which nothing observes) and leaves the page as it is then:
there only the page of `showAlert` is kept. -/
def searchEntities (env : Env) (s : Page) : Page :=
  let searchTerm := trim s.searchInput
  if !(Prim.string searchTerm).truthy then
    (showAlert env (Prim.string "Please enter a search term") "warning" s).1
  else
    s.fetch
      ⟨"/api/" ++ env.ENTITY_TYPE ++ "/search", "POST",
        [("Content-Type", "application/json")],
        some (stringify [("search_term", Prim.string searchTerm)])⟩
      Pending.searchEntities

/-- The rest of `searchEntities`, once the request has settled. -/
def searchEntities_resume (env : Env) (o : Outcome) (s : Page) : Page :=
  let caught (s : Page) : Page :=
    (showAlert env (Prim.string ("Error searching " ++ env.ENTITY_TYPE)) "error"
      (s.emit (Event.consoleError ("Error searching " ++ env.ENTITY_TYPE ++ ":")))).1
  match o with
  | Except.error _ => caught s
  | Except.ok entities =>
    match displaySearchResults env entities s with
    | Except.error _ => caught s
    | Except.ok s1 => s1

/-- The entries of `new FormData(form)`: name and current value of each
control, in document order. -/
def formData (form : List FormField) : List (String × String) :=
  form.map (fun f => (f.name, f.value))

/-- The object `entityData` that `addEntity` builds from the form entries. -/
def entityData (entries : List (String × String)) : Record :=
  entries.foldl
    (fun entityData entry =>
      if (Prim.string entry.2).truthy then
        if includes entry.1 "fee" || includes entry.1 "amount" ||
            includes entry.1 "cost" then
          entityData.set entry.1 (Prim.number (parseFloat entry.2))
        else
          entityData.set entry.1 (Prim.string entry.2)
      else entityData)
    []

/-- The synchronous part of `addEntity`, up to its `await`. -/
def addEntity (env : Env) (s : Page) : Page :=
  s.fetch
    ⟨"/api/" ++ env.ENTITY_TYPE ++ "/add", "POST",
      [("Content-Type", "application/json")],
      some (stringify (entityData (formData s.addEntityForm)))⟩
    Pending.addEntity

/-- The method `form.reset()`: every control back to its markup value. -/
def reset (form : List FormField) : List FormField :=
  form.map (fun f => { f with value := f.defaultValue })

/-- The rest of `addEntity`, once the request has settled. -/
def addEntity_resume (env : Env) (o : Outcome) (s : Page) : Page :=
  let caught (s : Page) : Page :=
    (showAlert env (Prim.string ("Error adding " ++ env.toLowerCase env.ENTITY_NAME)) "error"
      (s.emit (Event.consoleError
        ("Error adding " ++ env.toLowerCase env.ENTITY_NAME ++ ":")))).1
  match o with
  | Except.error _ => caught s
  | Except.ok result =>
    match result.get "success" with
    | Except.error _ => caught s
    | Except.ok success =>
      if success.truthy then
        match showAlert env
            (Prim.string (env.ENTITY_NAME ++ " added successfully!")) "success" s with
        | (s1, some _) => caught s1
        | (s1, none) =>
          let s2 := { s1 with addEntityForm := reset s1.addEntityForm }
          loadEntityCount env s2
      else
        match result.get "message" with
        | Except.error _ => caught s
        | Except.ok message =>
          match showAlert env
              (message.or (Prim.string ("Error adding " ++ env.toLowerCase env.ENTITY_NAME)))
              "error" s with
          | (s1, some _) => caught s1
          | (s1, none) => s1

/-- The synchronous part of `loadAllEntities`, up to its `await`. -/
def loadAllEntities (env : Env) (s : Page) : Page :=
  s.fetch ⟨"/api/" ++ env.ENTITY_TYPE ++ "/list", "GET", [], none⟩
    Pending.loadAllEntities

/-- The rest of `loadAllEntities`, once the request has settled. -/
def loadAllEntities_resume (env : Env) (o : Outcome) (s : Page) : Page :=
  let caught (s : Page) : Page :=
    (showAlert env (Prim.string ("Error loading " ++ env.ENTITY_TYPE)) "error"
      (s.emit (Event.consoleError ("Error loading " ++ env.ENTITY_TYPE ++ ":")))).1
  match o with
  | Except.error _ => caught s
  | Except.ok entities =>
    let s1 := { s with currentEntities := entities }
    match displayEntitiesList env entities s1 with
    | Except.error _ => caught s1
    | Except.ok s2 => s2

/-- The synchronous part of `deleteEntity(entityId)`, up to its `await`;
`confirmed` is the user's answer to the confirmation dialog. -/
def deleteEntity (env : Env) (entityId : String) (confirmed : Bool) (s : Page) : Page :=
  let s1 := s.emit (Event.confirm
    ("Are you sure you want to delete this " ++ env.toLowerCase env.ENTITY_NAME ++ "?"))
  if !confirmed then s1
  else
    s1.fetch
      ⟨"/api/" ++ env.ENTITY_TYPE ++ "/delete/" ++ entityId, "DELETE", [], none⟩
      Pending.deleteEntity

/-- The rest of `deleteEntity`, once the request has settled. -/
def deleteEntity_resume (env : Env) (o : Outcome) (s : Page) : Page :=
  let caught (s : Page) : Page :=
    (showAlert env (Prim.string ("Error deleting " ++ env.toLowerCase env.ENTITY_NAME)) "error"
      (s.emit (Event.consoleError
        ("Error deleting " ++ env.toLowerCase env.ENTITY_NAME ++ ":")))).1
  match o with
  | Except.error _ => caught s
  | Except.ok result =>
    match result.get "success" with
    | Except.error _ => caught s
    | Except.ok success =>
      if success.truthy then
        match showAlert env
            (Prim.string (env.ENTITY_NAME ++ " deleted successfully!")) "success" s with
        | (s1, some _) => caught s1
        | (s1, none) =>
          let s2 := loadEntityCount env s1
          match s2.currentEntities.get "length" with
          | Except.error _ => caught s2
          | Except.ok length =>
            if greaterThanZero length then loadAllEntities env s2 else s2
      else
        match result.get "message" with
        | Except.error _ => caught s
        | Except.ok message =>
          match showAlert env
              (message.or
                (Prim.string ("Error deleting " ++ env.toLowerCase env.ENTITY_NAME)))
              "error" s with
          | (s1, some _) => caught s1
          | (s1, none) => s1

/-- The function `clearSearch()`. -/
def clearSearch (s : Page) : Page :=
  { s with searchInput := "", searchResults := "" }

/-! ## A session -/

/-- The continuation of a suspended operation. -/
def resume (env : Env) (k : Pending) (o : Outcome) (s : Page) : Page :=
  match k with
  | Pending.loadEntityCount => loadEntityCount_resume env o s
  | Pending.searchEntities => searchEntities_resume env o s
  | Pending.addEntity => addEntity_resume env o s
  | Pending.loadAllEntities => loadAllEntities_resume env o s
  | Pending.deleteEntity => deleteEntity_resume env o s

/-- The `i`-th suspended operation resumes with the outcome of its request;
requests settle in any order. -/
def settle (env : Env) (i : Nat) (o : Outcome) (s : Page) : Page :=
  match s.pending.get? i with
  | none => s
  | some k => resume env k o { s with pending := s.pending.eraseIdx i }

/-- What can happen on the page: a call of one of the operations (the
`DOMContentLoaded` handler calls `loadEntityCount`, the submit handler
`addEntity`, the buttons of the page the others), a key pressed in the search
box, the user editing the search box or a control of the add form, and a
pending request settling. -/
inductive Action where
  | loadEntityCount
  | searchEntities
  | addEntity
  | loadAllEntities
  | deleteEntity (entityId : String) (confirmed : Bool)
  | clearSearch
  | keypress (key : String)
  | typeSearch (text : String)
  | typeField (name : String) (text : String)
  | settle (i : Nat) (o : Outcome)

/-- One action on the page. -/
def step (env : Env) (a : Action) (s : Page) : Page :=
  match a with
  | Action.loadEntityCount => loadEntityCount env s
  | Action.searchEntities => searchEntities env s
  | Action.addEntity => addEntity env s
  | Action.loadAllEntities => loadAllEntities env s
  | Action.deleteEntity entityId confirmed => deleteEntity env entityId confirmed s
  | Action.clearSearch => clearSearch s
  | Action.keypress key => if key = "Enter" then searchEntities env s else s
  | Action.typeSearch text => { s with searchInput := text }
  | Action.typeField name text =>
    { s with addEntityForm :=
        s.addEntityForm.map (fun f => if f.name = name then { f with value := text } else f) }
  | Action.settle i o => settle env i o s

/-- A sequence of actions, from the left. -/
def run (env : Env) (s : Page) (actions : List Action) : Page :=
  actions.foldl (fun s a => step env a s) s

/-- A page as the script finds it when it is loaded: `currentEntities` is the
empty array, nothing is suspended, nothing has happened yet. -/
def Page.initial (s : Page) : Prop :=
  s.currentEntities = Value.array [] ∧ s.pending = [] ∧ s.log = []

instance (s : Page) : Decidable s.initial := by
  unfold Page.initial; infer_instance

/-- The action is a list request settling with a parsed body: the step at
which `loadAllEntities` stores the list it has loaded. -/
def listLoaded (s : Page) (a : Action) : Prop :=
  ∃ i entities, a = Action.settle i (Except.ok entities) ∧
    s.pending.get? i = some Pending.loadAllEntities

/-- The action is a delete request settling with a body whose `success` is
truthy: a successful `deleteEntity`. -/
def deleteSucceeded (s : Page) (a : Action) : Prop :=
  ∃ i result success, a = Action.settle i (Except.ok result) ∧
    s.pending.get? i = some Pending.deleteEntity ∧
    result.get "success" = Except.ok success ∧ success.truthy = true

/-- The request `loadAllEntities` issues. -/
def listRequest (env : Env) : Request :=
  ⟨"/api/" ++ env.ENTITY_TYPE ++ "/list", "GET", [], none⟩

/-- The events of `s1` that came after those of `s`. -/
def newEvents (s s1 : Page) : List Event := s1.log.drop s.log.length

/-! ## `main.js`: `formatCurrency` -/

/-- A run of digits with a comma before every group of three from the right;
the digits are given last digit first. -/
def groupReversed : List Char → List Char
  | a :: b :: c :: d :: rest => a :: b :: c :: ',' :: groupReversed (d :: rest)
  | ds => ds

/-- The integer written with the grouping of the `en-US` locale. -/
def grouped (n : Nat) : List Char := (groupReversed (Nat.toDigits 10 n).reverse).reverse

/-- The integer nearest to `m * 10^k`, a tie going away from zero. -/
def roundHalfExpand (m : Nat) (k : Int) : Nat :=
  match k with
  | Int.ofNat j => m * 10 ^ j
  | Int.negSucc j => (2 * m + 10 ^ (j + 1)) / (2 * 10 ^ (j + 1))

/-- The method `format` of `Intl.NumberFormat("en-US", style currency,
currency USD)` on a Number: sign, dollar sign, grouped integer part, point and
two fraction digits.  The digits are those of the decimal numeral. -/
def formatUSD (x : JSNumber) : String :=
  match x with
  | JSNumber.nan => "$NaN"
  | JSNumber.infinity neg => (if neg then "-" else "") ++ "$∞"
  | JSNumber.decimal neg m e =>
    if JSNumber.overflows m e then (if neg then "-" else "") ++ "$∞"
    else
      let cents := roundHalfExpand m (e + 2)
      (if neg then "-" else "") ++ "$" ++ String.mk (grouped (cents / 100)) ++ "." ++
        String.mk [Nat.digitChar (cents % 100 / 10), Nat.digitChar (cents % 10)]

/-- The function `formatCurrency(amount)`. -/
def formatCurrency (amount : Prim) : String :=
  if !amount.truthy then ""
  else formatUSD (toNumber amount)

/-! ## The card as the specification describes it -/

/-- The line of an optional field: present in the card exactly when the value
of the field is truthy. -/
def optionalLine (env : Env) (r : Record) (key : String) (opening : String) : List String :=
  if (r.get key).truthy then [opening ++ env.text (r.get key) ++ "</p>"] else []

/-- The lines of a card in the order of the rendering contract: name and
email, the optional fields, the creation line, the creator, the delete
button. -/
def cardLines (env : Env) (r : Record) (showCreatedBy : Bool) : List String :=
  ["\n        <div class=\"result-card\">\n            <h5>" ++ env.text (r.get "name") ++
     "</h5>\n            <p><i class=\"fas fa-envelope\"></i> " ++ env.text (r.get "email") ++
     "</p>\n    "] ++
  optionalLine env r "company" "<p><i class=\"fas fa-building\"></i> " ++
  optionalLine env r "organization" "<p><i class=\"fas fa-university\"></i> " ++
  optionalLine env r "phone" "<p><i class=\"fas fa-phone\"></i> " ++
  optionalLine env r "partnership_type" "<p><i class=\"fas fa-handshake\"></i> " ++
  optionalLine env r "service_type" "<p><i class=\"fas fa-cogs\"></i> " ++
  optionalLine env r "participant_type" "<p><i class=\"fas fa-user-tag\"></i> " ++
  optionalLine env r "cost_estimate" "<p><i class=\"fas fa-dollar-sign\"></i> Cost: $" ++
  optionalLine env r "registration_fee" "<p><i class=\"fas fa-dollar-sign\"></i> Fee: $" ++
  ["<p><i class=\"fas fa-calendar\"></i> Added: " ++ env.text (r.get "created_at") ++ "</p>"] ++
  (if showCreatedBy then optionalLine env r "created_by" "<p><i class=\"fas fa-user\"></i> By: "
   else []) ++
  ["\n            <button onclick=\"deleteEntity(\x27" ++ env.text (r.get "_id") ++
     "\x27)\" class=\"btn btn-danger btn-sm\">\n                " ++
     "<i class=\"fas fa-trash\"></i> Delete\n            </button>\n        </div>\n    "]

/-! ## Sample data for the closed statements -/

/-- A conversion of a Number to text for the examples: exact on `NaN`, the
infinities, the zeros and the integers written with exponent `0`; other
numerals are written mantissa, `e`, exponent. -/
def sampleNumberToString : JSNumber → String
  | JSNumber.nan => "NaN"
  | JSNumber.infinity neg => if neg then "-Infinity" else "Infinity"
  | JSNumber.decimal neg m e =>
    if m = 0 then "0"
    else (if neg then "-" else "") ++ Nat.repr m ++
      (if e = 0 then "" else "e" ++ (if e < 0 then "-" else "") ++ Nat.repr e.natAbs)

/-- A stand-in for the HTML parser in the examples: the close button is found
unless the markup opens a comment or a `textarea` before it, which turn the
button into text.  It is exact on a message without `<`. -/
def sampleHasCloseAlert (markup : String) : Bool :=
  !(includes markup "<!--" || includes markup "<textarea")

/-- The partners page. -/
def partners : Env :=
  ⟨"partners", "Partner", sampleNumberToString, asciiLowerCase, sampleHasCloseAlert⟩

/-- A page just loaded, with a two-field add form. -/
def freshPage : Page :=
  { entityCount := "0", searchInput := "", searchResults := "", entitiesList := "",
    addEntityForm := [⟨"name", "", ""⟩, ⟨"registration_fee", "", ""⟩],
    currentEntities := Value.array [], pending := [], log := [] }

/-- The alerts among some events: class and markup of each, in order. -/
def alertsOf (es : List Event) : List (String × String) :=
  es.filterMap (fun e =>
    match e with
    | Event.alert c h => some (c, h)
    | _ => none)

/-- The requests among some events, in order. -/
def requestsOf (es : List Event) : List Request :=
  es.filterMap (fun e =>
    match e with
    | Event.fetch r => some r
    | _ => none)

/-- Some `<` in `cs` is directly followed by the character `d`. -/
def opensWith (d : Char) : List Char → Bool
  | [] => false
  | c :: rest => (c == '<' && rest.head? == some d) || opensWith d rest

/-- A record whose cost estimate is present and zero. -/
def zeroCost : Record :=
  [("name", Prim.string "Acme"), ("email", Prim.string "desk@acme.io"),
   ("cost_estimate", Prim.number JSNumber.zero),
   ("created_at", Prim.string "2024-05-01"), ("_id", Prim.string "42")]

/-- The card of `zeroCost` on the partners page. -/
def zeroCostCard : String :=
  "\n        <div class=\"result-card\">\n            <h5>Acme</h5>\n" ++
  "            <p><i class=\"fas fa-envelope\"></i> desk@acme.io</p>\n    " ++
  "<p><i class=\"fas fa-calendar\"></i> Added: 2024-05-01</p>\n" ++
  "            <button onclick=\"deleteEntity(\x2742\x27)\" " ++
  "class=\"btn btn-danger btn-sm\">\n                " ++
  "<i class=\"fas fa-trash\"></i> Delete\n            </button>\n        </div>\n    "

/-- A record with both monetary fields and the three type fields. -/
def fullRecord : Record :=
  [("name", Prim.string "Acme"), ("email", Prim.string "desk@acme.io"),
   ("partnership_type", Prim.string "gold"), ("service_type", Prim.string "catering"),
   ("participant_type", Prim.string "speaker"),
   ("cost_estimate", Prim.number (JSNumber.decimal false 100 0)),
   ("registration_fee", Prim.number (JSNumber.decimal false 50 0)),
   ("created_at", Prim.string "2024-05-01"), ("created_by", Prim.string "admin"),
   ("_id", Prim.string "42")]

/-- The test `addEntity` applies to the name of a form field. -/
def isMoneyKey (key : String) : Bool :=
  includes key "fee" || includes key "amount" || includes key "cost"

/-- The request `addEntity` issues for a form. -/
def addRequest (env : Env) (form : List FormField) : Request :=
  ⟨"/api/" ++ env.ENTITY_TYPE ++ "/add", "POST", [("Content-Type", "application/json")],
    some (stringify (entityData (formData form)))⟩

/-- A page whose fee control has the markup value `25` and holds `30`. -/
def presetPage : Page :=
  { freshPage with
    addEntityForm := [⟨"name", "", "Acme"⟩, ⟨"registration_fee", "25", "30"⟩] }

/-- A fresh page whose fee control holds the text `abc`. -/
def feePage : Page :=
  { freshPage with
    addEntityForm := [⟨"name", "", "Acme"⟩, ⟨"registration_fee", "", "abc"⟩] }

/-! ## Lemmas on the log and on strings -/

theorem newEvents_append (s s1 : Page) (es : List Event) (h : s1.log = s.log ++ es) :
    newEvents s s1 = es := by
  simp [newEvents, h]

theorem Env.text_string (env : Env) (t : String) : env.text (Prim.string t) = t := rfl

theorem showAlert_eq (env : Env) (message : Prim) (type : String) (s : Page) :
    showAlert env message type s =
      (s.emit (Event.alert ("alert alert-" ++ type) (banner (env.text message))),
        if env.hasCloseAlert (banner (env.text message)) then none
        else some JSError.typeError) := by
  simp only [showAlert]
  by_cases h : env.hasCloseAlert (banner (env.text message)) = true <;> simp [h]

theorem showAlert_fst (env : Env) (message : Prim) (type : String) (s : Page) :
    (showAlert env message type s).1 =
      s.emit (Event.alert ("alert alert-" ++ type) (banner (env.text message))) := by
  rw [showAlert_eq]

theorem trim_of_whiteSpace (t : String) (h : ∀ c ∈ t.data, isWhiteSpace c = true) :
    trim t = "" := by
  have h1 : trimStart t.data = [] := by
    simpa [trimStart, List.dropWhile_eq_nil_iff] using h
  simp [trim, h1, trimEnd]

/-! ## Search -/

/-- C2: when the search box holds only white space (or nothing),
`searchEntities` issues no request and suspends nothing, its only event is one
alert of class `alert-warning`, and every element of the page, the results
area included, is as before. -/
theorem C2_blank_search_only_warns (env : Env) (s : Page)
    (h : ∀ c ∈ s.searchInput.data, isWhiteSpace c = true) :
    newEvents s (searchEntities env s) =
        [Event.alert "alert alert-warning" (banner "Please enter a search term")] ∧
      requestsOf (newEvents s (searchEntities env s)) = [] ∧
      (searchEntities env s).pending = s.pending ∧
      (searchEntities env s).searchResults = s.searchResults ∧
      searchEntities env s = { s with log := (searchEntities env s).log } := by
  have ht := trim_of_whiteSpace s.searchInput h
  have hs : searchEntities env s =
      s.emit (Event.alert "alert alert-warning" (banner "Please enter a search term")) := by
    simp [searchEntities, ht, Prim.truthy, showAlert_fst, Env.text]
  have hn : newEvents s (searchEntities env s) =
      [Event.alert "alert alert-warning" (banner "Please enter a search term")] :=
    newEvents_append _ _ _ (by rw [hs]; rfl)
  refine ⟨hn, ?_, ?_, ?_, ?_⟩
  · rw [hn]; rfl
  · rw [hs]; rfl
  · rw [hs]; rfl
  · rw [hs]; rfl

theorem C2_blank_search_only_warns_witness :
    (∀ c ∈ (" \t " : String).data, isWhiteSpace c = true) ∧
      newEvents { freshPage with searchInput := " \t " }
          (searchEntities partners { freshPage with searchInput := " \t " }) =
        [Event.alert "alert alert-warning" (banner "Please enter a search term")] :=
  ⟨by decide,
    (C2_blank_search_only_warns partners { freshPage with searchInput := " \t " }
      (by decide)).1⟩

/-! ## Delete -/

/-- C3: `deleteEntity` first shows the confirmation dialog.  When the answer
is no, that dialog is its only event: no request, no alert, nothing suspended,
and the cached list and every element of the page stay as they were.  When the
answer is yes, the dialog is followed by the one `DELETE` request; so a
`DELETE` request is issued only after an accepted confirmation. -/
theorem C3_delete_asks_first (env : Env) (entityId : String) (confirmed : Bool) (s : Page) :
    newEvents s (deleteEntity env entityId confirmed s) =
        Event.confirm
            ("Are you sure you want to delete this " ++ env.toLowerCase env.ENTITY_NAME ++ "?") ::
          (if confirmed then
            [Event.fetch ⟨"/api/" ++ env.ENTITY_TYPE ++ "/delete/" ++ entityId, "DELETE",
              [], none⟩]
           else []) ∧
      (requestsOf (newEvents s (deleteEntity env entityId confirmed s)) ≠ [] ↔
        confirmed = true) ∧
      alertsOf (newEvents s (deleteEntity env entityId confirmed s)) = [] ∧
      deleteEntity env entityId false s =
        { s with log := s.log ++ [Event.confirm
            ("Are you sure you want to delete this " ++ env.toLowerCase env.ENTITY_NAME ++ "?")] } := by
  have hn : newEvents s (deleteEntity env entityId confirmed s) =
      Event.confirm
          ("Are you sure you want to delete this " ++ env.toLowerCase env.ENTITY_NAME ++ "?") ::
        (if confirmed then
          [Event.fetch ⟨"/api/" ++ env.ENTITY_TYPE ++ "/delete/" ++ entityId, "DELETE",
            [], none⟩]
         else []) := by
    apply newEvents_append
    cases confirmed <;> simp [deleteEntity, Page.emit, Page.fetch]
  refine ⟨hn, ?_, ?_, ?_⟩
  · rw [hn]; cases confirmed <;> simp [requestsOf]
  · rw [hn]; cases confirmed <;> simp [alertsOf]
  · simp [deleteEntity, Page.emit]

/-! ## Add: the response -/

set_option maxRecDepth 20000 in
/-- C8, as stated, fails: on a form whose fee control has the markup value
`25`, the reset after a successful add leaves `25` in that control; the control
is not clear. -/
theorem C8_markup_value_returns :
    (Value.object [("success", Prim.bool true)]).get "success" = Except.ok (Prim.bool true) ∧
      (addEntity_resume partners (Except.ok (Value.object [("success", Prim.bool true)]))
          presetPage).addEntityForm =
        [⟨"name", "", ""⟩, ⟨"registration_fee", "25", "25"⟩] ∧
      ("25" : String) ≠ "" :=
  ⟨rfl, by decide, by decide⟩

/-- C8, amended: when the add request settles with a body whose `success` is
truthy and `showAlert` finds the close button of the success banner,
`addEntity` does exactly two things to the outside, in this order: it shows one
alert, of class `alert-success`, and issues the count request (whose
continuation is suspended).  The form is reset: every control is kept, with its
name and its markup value, and holds its markup value again; so a control is
clear exactly when its markup value is blank.  Nothing else on the page
changes, and no other alert is shown. -/
theorem C8_add_success (env : Env) (result : Value) (success : Prim) (s : Page)
    (h1 : result.get "success" = Except.ok success) (h2 : success.truthy = true)
    (h3 : env.hasCloseAlert (banner (env.ENTITY_NAME ++ " added successfully!")) = true) :
    addEntity_resume env (Except.ok result) s =
        { s with
          addEntityForm :=
            s.addEntityForm.map (fun f => ⟨f.name, f.defaultValue, f.defaultValue⟩)
          pending := s.pending ++ [Pending.loadEntityCount]
          log := s.log ++
            [Event.alert "alert alert-success"
              (banner (env.ENTITY_NAME ++ " added successfully!")),
             Event.fetch ⟨"/api/" ++ env.ENTITY_TYPE ++ "/count", "GET", [], none⟩] } ∧
      newEvents s (addEntity_resume env (Except.ok result) s) =
        [Event.alert "alert alert-success" (banner (env.ENTITY_NAME ++ " added successfully!")),
         Event.fetch ⟨"/api/" ++ env.ENTITY_TYPE ++ "/count", "GET", [], none⟩] ∧
      alertsOf (newEvents s (addEntity_resume env (Except.ok result) s)) =
        [("alert alert-success", banner (env.ENTITY_NAME ++ " added successfully!"))] ∧
      (addEntity_resume env (Except.ok result) s).addEntityForm.map FormField.name =
        s.addEntityForm.map FormField.name ∧
      (addEntity_resume env (Except.ok result) s).addEntityForm.map FormField.value =
        s.addEntityForm.map FormField.defaultValue ∧
      (∀ f ∈ (addEntity_resume env (Except.ok result) s).addEntityForm,
        f.value = "" ↔ f.defaultValue = "") := by
  have hs : addEntity_resume env (Except.ok result) s =
      { s with
        addEntityForm :=
          s.addEntityForm.map (fun f => ⟨f.name, f.defaultValue, f.defaultValue⟩)
        pending := s.pending ++ [Pending.loadEntityCount]
        log := s.log ++
          [Event.alert "alert alert-success" (banner (env.ENTITY_NAME ++ " added successfully!")),
           Event.fetch ⟨"/api/" ++ env.ENTITY_TYPE ++ "/count", "GET", [], none⟩] } := by
    simp [addEntity_resume, h1, h2, h3, showAlert_eq, loadEntityCount, Page.emit, Page.fetch,
      Env.text, reset]
  have hn := newEvents_append s _ _ (congrArg Page.log hs)
  refine ⟨hs, hn, ?_, ?_, ?_, ?_⟩
  · rw [hn]; rfl
  · rw [hs]; simp [Function.comp_def]
  · rw [hs]; simp [Function.comp_def]
  · rw [hs]
    intro f hf
    simp only [List.mem_map] at hf
    obtain ⟨g, _, rfl⟩ := hf
    exact Iff.rfl

set_option maxRecDepth 20000 in
theorem C8_add_success_witness :
    newEvents presetPage
        (addEntity_resume partners
          (Except.ok (Value.object [("success", Prim.bool true)])) presetPage) =
      [Event.alert "alert alert-success" (banner "Partner added successfully!"),
       Event.fetch ⟨"/api/partners/count", "GET", [], none⟩] ∧
    (addEntity_resume partners
        (Except.ok (Value.object [("success", Prim.bool true)])) presetPage).addEntityForm.map
        FormField.value = ["", "25"] :=
  ⟨(C8_add_success partners (Value.object [("success", Prim.bool true)]) (Prim.bool true)
      presetPage rfl rfl (by decide)).2.1,
    (C8_add_success partners (Value.object [("success", Prim.bool true)]) (Prim.bool true)
      presetPage rfl rfl (by decide)).2.2.2.2.1⟩

/-! ## Count -/

/-- C9: when the count request is rejected or its body cannot be parsed,
`loadEntityCount` leaves the count display and every other element as they
were and shows no alert (its only event is a line on the error console).  When
a body is parsed and its `count` can be read, the display is set to the text of
that `count` if it is truthy, and to the text of `0` otherwise: when the body
has no `count`, or a `count` that is zero.  No alert is shown then either.  The
body `null`, from which no `count` can be read, is handled as a failure. -/
theorem C9_count_display (env : Env) (s : Page) :
    (∀ e : JSError,
      (loadEntityCount_resume env (Except.error e) s).entityCount = s.entityCount ∧
      alertsOf (newEvents s (loadEntityCount_resume env (Except.error e) s)) = [] ∧
      loadEntityCount_resume env (Except.error e) s =
        { s with log := s.log ++
            [Event.consoleError ("Error loading " ++ env.ENTITY_TYPE ++ " count:")] }) ∧
    (∀ (data : Value) (count : Prim), data.get "count" = Except.ok count →
      (count.truthy = true →
        (loadEntityCount_resume env (Except.ok data) s).entityCount = env.text count) ∧
      (count.truthy = false →
        (loadEntityCount_resume env (Except.ok data) s).entityCount =
          env.text (Prim.number JSNumber.zero)) ∧
      alertsOf (newEvents s (loadEntityCount_resume env (Except.ok data) s)) = []) ∧
    (∀ r : Record, r.lookup "count" = none →
      (loadEntityCount_resume env (Except.ok (Value.object r)) s).entityCount =
        env.numberToString JSNumber.zero) ∧
    loadEntityCount_resume env (Except.ok (Value.prim Prim.null)) s =
      { s with log := s.log ++
          [Event.consoleError ("Error loading " ++ env.ENTITY_TYPE ++ " count:")] } := by
  refine ⟨?_, ?_, ?_, ?_⟩
  · intro e
    have hs : loadEntityCount_resume env (Except.error e) s =
        { s with log := s.log ++
            [Event.consoleError ("Error loading " ++ env.ENTITY_TYPE ++ " count:")] } := by
      simp [loadEntityCount_resume, Page.emit]
    have hn := newEvents_append s _ _ (congrArg Page.log hs)
    refine ⟨by rw [hs], ?_, hs⟩
    rw [hn]; rfl
  · intro data count h
    have hs : loadEntityCount_resume env (Except.ok data) s =
        { s with entityCount := env.text (count.or (Prim.number JSNumber.zero)) } := by
      simp [loadEntityCount_resume, h]
    have hn : newEvents s (loadEntityCount_resume env (Except.ok data) s) = [] :=
      newEvents_append s _ _ (by rw [hs]; simp)
    refine ⟨?_, ?_, ?_⟩
    · intro ht; rw [hs]; simp [Prim.or, ht]
    · intro ht; rw [hs]; simp [Prim.or, ht]
    · rw [hn]; rfl
  · intro r h
    simp [loadEntityCount_resume, Value.get, Record.get, h, Prim.or, Prim.truthy, Env.text]
  · simp [loadEntityCount_resume, Value.get, Page.emit]

theorem C9_count_display_witness :
    (loadEntityCount_resume partners
        (Except.ok (Value.object [("count", Prim.number (JSNumber.decimal false 7 0))]))
        freshPage).entityCount = "7" ∧
      (loadEntityCount_resume partners (Except.ok (Value.object [("total", Prim.null)]))
        freshPage).entityCount = "0" :=
  ⟨((C9_count_display partners freshPage).2.1
      (Value.object [("count", Prim.number (JSNumber.decimal false 7 0))])
      (Prim.number (JSNumber.decimal false 7 0)) rfl).1 (by decide),
    ((C9_count_display partners freshPage).2.1
      (Value.object [("total", Prim.null)]) Prim.undefined rfl).2.1 (by decide)⟩

/-! ## Add: a reported failure and a thrown one -/

set_option maxRecDepth 20000 in
/-- C5, as stated, fails: on the partners page a body reporting failure with
the message `Email already exists` is shown as that message, a rejected
request as `Error adding partner`. -/
theorem C5_reported_message_differs :
    alertsOf (newEvents freshPage (addEntity_resume partners
        (Except.ok (Value.object
          [("success", Prim.bool false), ("message", Prim.string "Email already exists")]))
        freshPage)) =
      [("alert alert-error", banner "Email already exists")] ∧
    alertsOf (newEvents freshPage (addEntity_resume partners
        (Except.error JSError.typeError) freshPage)) =
      [("alert alert-error", banner "Error adding partner")] ∧
    banner "Email already exists" ≠ banner "Error adding partner" := by
  decide

theorem addEntity_resume_thrown (env : Env) (e : JSError) (s : Page) :
    addEntity_resume env (Except.error e) s =
      { s with log := s.log ++
          [Event.consoleError ("Error adding " ++ env.toLowerCase env.ENTITY_NAME ++ ":"),
           Event.alert "alert alert-error"
            (banner ("Error adding " ++ env.toLowerCase env.ENTITY_NAME))] } := by
  simp [addEntity_resume, showAlert_fst, Page.emit, Env.text]

theorem addEntity_resume_reported (env : Env) (result : Value) (success message : Prim)
    (s : Page) (h1 : result.get "success" = Except.ok success) (h2 : success.truthy = false)
    (h3 : result.get "message" = Except.ok message) :
    addEntity_resume env (Except.ok result) s =
      { s with log := s.log ++
          (Event.alert "alert alert-error"
            (banner (env.text (message.or
              (Prim.string ("Error adding " ++ env.toLowerCase env.ENTITY_NAME))))) ::
          (if env.hasCloseAlert (banner (env.text (message.or
              (Prim.string ("Error adding " ++ env.toLowerCase env.ENTITY_NAME))))) = true
           then []
           else
            [Event.consoleError ("Error adding " ++ env.toLowerCase env.ENTITY_NAME ++ ":"),
             Event.alert "alert alert-error"
              (banner ("Error adding " ++ env.toLowerCase env.ENTITY_NAME))])) } := by
  by_cases hb : env.hasCloseAlert (banner (env.text (message.or
      (Prim.string ("Error adding " ++ env.toLowerCase env.ENTITY_NAME))))) = true
  · simp [addEntity_resume, h1, h2, h3, showAlert_eq, hb, Page.emit]
  · simp [addEntity_resume, h1, h2, h3, showAlert_eq, hb, Page.emit, Env.text_string]

/-- C5, amended: for a body that reports failure (`success` absent or falsy)
whose alert `showAlert` completes (it finds the close button of the banner),
and for a request or a parsing that throws, `addEntity` shows exactly one
alert, of class `alert-error`, issues no request (the count is not refreshed),
suspends nothing and leaves the form and every other element as they were.
The text of the alert is the same in both cases when the body carries no
truthy `message`; when it does, the reported failure shows that message and
the thrown one the generic text. -/
theorem C5_failure_paths (env : Env) (result : Value) (success message : Prim)
    (e : JSError) (s : Page)
    (h1 : result.get "success" = Except.ok success) (h2 : success.truthy = false)
    (h3 : result.get "message" = Except.ok message)
    (h4 : env.hasCloseAlert (banner (env.text (message.or
      (Prim.string ("Error adding " ++ env.toLowerCase env.ENTITY_NAME))))) = true) :
    alertsOf (newEvents s (addEntity_resume env (Except.error e) s)) =
        [("alert alert-error", banner ("Error adding " ++ env.toLowerCase env.ENTITY_NAME))] ∧
      alertsOf (newEvents s (addEntity_resume env (Except.ok result) s)) =
        [("alert alert-error",
          banner (env.text (message.or
            (Prim.string ("Error adding " ++ env.toLowerCase env.ENTITY_NAME)))))] ∧
      (message.truthy = false →
        alertsOf (newEvents s (addEntity_resume env (Except.ok result) s)) =
          alertsOf (newEvents s (addEntity_resume env (Except.error e) s))) ∧
      (message.truthy = true →
        alertsOf (newEvents s (addEntity_resume env (Except.ok result) s)) =
          [("alert alert-error", banner (env.text message))]) ∧
      requestsOf (newEvents s (addEntity_resume env (Except.ok result) s)) = [] ∧
      requestsOf (newEvents s (addEntity_resume env (Except.error e) s)) = [] ∧
      { addEntity_resume env (Except.ok result) s with log := [] } = { s with log := [] } ∧
      { addEntity_resume env (Except.error e) s with log := [] } = { s with log := [] } := by
  have ha : addEntity_resume env (Except.ok result) s =
      { s with log := s.log ++ [Event.alert "alert alert-error"
          (banner (env.text (message.or
            (Prim.string ("Error adding " ++ env.toLowerCase env.ENTITY_NAME)))))] } := by
    rw [addEntity_resume_reported env result success message s h1 h2 h3, if_pos h4]
  have hb := addEntity_resume_thrown env e s
  have hna := newEvents_append s _ _ (congrArg Page.log ha)
  have hnb := newEvents_append s _ _ (congrArg Page.log hb)
  refine ⟨?_, ?_, ?_, ?_, ?_, ?_, ?_, ?_⟩
  · rw [hnb]; rfl
  · rw [hna]; rfl
  · intro hm
    rw [hna, hnb]
    simp [alertsOf, Prim.or, hm, Env.text]
  · intro hm
    rw [hna]
    simp [alertsOf, Prim.or, hm]
  · rw [hna]; rfl
  · rw [hnb]; rfl
  · rw [ha]
  · rw [hb]

set_option maxRecDepth 20000 in
theorem C5_failure_paths_witness :
    alertsOf (newEvents freshPage (addEntity_resume partners
        (Except.ok (Value.object [("success", Prim.bool false)])) freshPage)) =
      alertsOf (newEvents freshPage (addEntity_resume partners
        (Except.error JSError.typeError) freshPage)) :=
  (C5_failure_paths partners (Value.object [("success", Prim.bool false)])
    (Prim.bool false) Prim.undefined JSError.typeError freshPage rfl rfl rfl
    (by decide)).2.2.1 rfl

/-! ## The card -/

theorem Item_get_object (r : Record) (key : String) :
    (Item.object r).get key = Except.ok (r.get key) := rfl

theorem join_nil : String.join [] = "" := rfl

theorem join_foldl (l : List String) (acc : String) :
    l.foldl (fun r s => r ++ s) acc = acc ++ String.join l := by
  induction l generalizing acc with
  | nil => simp [join_nil]
  | cons a l ih =>
    have h : String.join (a :: l) = l.foldl (fun r s => r ++ s) ("" ++ a) := rfl
    rw [List.foldl_cons, ih, h, ih ("" ++ a)]
    simp [String.append_assoc]

theorem join_cons (a : String) (l : List String) :
    String.join (a :: l) = a ++ String.join l := by
  have h : String.join (a :: l) = l.foldl (fun r s => r ++ s) ("" ++ a) := rfl
  rw [h, join_foldl]; simp

theorem join_append (l1 l2 : List String) :
    String.join (l1 ++ l2) = String.join l1 ++ String.join l2 := by
  induction l1 with
  | nil => simp [join_nil]
  | cons a l ih => simp [join_cons, ih, String.append_assoc]

theorem appendField_object (env : Env) (r : Record) (key opening html : String) :
    appendField env (Item.object r) key opening html =
      Except.ok (html ++ String.join (optionalLine env r key opening)) := by
  simp only [appendField, Item_get_object, bind, Except.bind, pure, Except.pure, optionalLine]
  split <;> simp [join_cons, join_nil, String.append_assoc]

theorem createEntityCard_object (env : Env) (r : Record) (flag : Bool) :
    createEntityCard env (Item.object r) flag =
      Except.ok (String.join (cardLines env r flag)) := by
  simp only [createEntityCard, appendField_object, Item_get_object, bind, Except.bind, pure,
    Except.pure, cardLines]
  cases flag <;>
    simp [join_append, join_cons, join_nil, String.append_assoc, appendField_object,
      -String.reduceAppend]

theorem Env.text_number (env : Env) (n : JSNumber) :
    env.text (Prim.number n) = env.numberToString n := rfl

set_option maxRecDepth 20000 in
/-- C4, as stated, fails: the record `zeroCost` carries the field
`cost_estimate` (with the value zero), yet its card has no cost line. -/
theorem C4_zero_cost_has_no_line :
    zeroCost.lookup "cost_estimate" = some (Prim.number JSNumber.zero) ∧
      createEntityCard partners (Item.object zeroCost) false = Except.ok zeroCostCard ∧
      includes zeroCostCard "Cost:" = false :=
  ⟨rfl, rfl, by decide⟩

/-- C4, amended: for every entity record and every value of the show-creator
flag, `createEntityCard` returns the lines of `cardLines` joined, in that fixed
order: the name and email lines (always), then one line for each of company,
organization, phone, partnership_type, service_type, participant_type,
cost_estimate (`Cost: $`) and registration_fee (`Fee: $`) exactly when the
value of that field is truthy, then the created_at line (always), then the
creator line exactly when the flag is set and created_by is truthy, then the
delete button bound to `_id`.  A record with cost_estimate 100 and
registration_fee 50 has both monetary lines, and a record with the three type
fields truthy has a line for each of them. -/
theorem C4_card_lines (env : Env) (r : Record) (showCreatedBy : Bool) :
    createEntityCard env (Item.object r) showCreatedBy =
        Except.ok (String.join (cardLines env r showCreatedBy)) ∧
      (r.get "cost_estimate" = Prim.number (JSNumber.decimal false 100 0) →
        r.get "registration_fee" = Prim.number (JSNumber.decimal false 50 0) →
        ∃ before after, createEntityCard env (Item.object r) showCreatedBy =
          Except.ok (before ++
            ("<p><i class=\"fas fa-dollar-sign\"></i> Cost: $" ++
              env.numberToString (JSNumber.decimal false 100 0) ++ "</p>") ++
            ("<p><i class=\"fas fa-dollar-sign\"></i> Fee: $" ++
              env.numberToString (JSNumber.decimal false 50 0) ++ "</p>") ++ after)) ∧
      ((r.get "partnership_type").truthy = true → (r.get "service_type").truthy = true →
        (r.get "participant_type").truthy = true →
        ∃ before after, createEntityCard env (Item.object r) showCreatedBy =
          Except.ok (before ++
            ("<p><i class=\"fas fa-handshake\"></i> " ++
              env.text (r.get "partnership_type") ++ "</p>") ++
            ("<p><i class=\"fas fa-cogs\"></i> " ++ env.text (r.get "service_type") ++ "</p>") ++
            ("<p><i class=\"fas fa-user-tag\"></i> " ++
              env.text (r.get "participant_type") ++ "</p>") ++ after)) := by
  refine ⟨createEntityCard_object env r showCreatedBy, ?_, ?_⟩
  · intro hc hf
    have ht1 : (Prim.number (JSNumber.decimal false 100 0)).truthy = true := by decide
    have ht2 : (Prim.number (JSNumber.decimal false 50 0)).truthy = true := by decide
    rw [createEntityCard_object]
    refine ⟨String.join
        (["\n        <div class=\"result-card\">\n            <h5>" ++ env.text (r.get "name") ++
          "</h5>\n            <p><i class=\"fas fa-envelope\"></i> " ++ env.text (r.get "email") ++
          "</p>\n    "] ++
        optionalLine env r "company" "<p><i class=\"fas fa-building\"></i> " ++
        optionalLine env r "organization" "<p><i class=\"fas fa-university\"></i> " ++
        optionalLine env r "phone" "<p><i class=\"fas fa-phone\"></i> " ++
        optionalLine env r "partnership_type" "<p><i class=\"fas fa-handshake\"></i> " ++
        optionalLine env r "service_type" "<p><i class=\"fas fa-cogs\"></i> " ++
        optionalLine env r "participant_type" "<p><i class=\"fas fa-user-tag\"></i> "),
      String.join
        (["<p><i class=\"fas fa-calendar\"></i> Added: " ++ env.text (r.get "created_at") ++
          "</p>"] ++
        (if showCreatedBy then
          optionalLine env r "created_by" "<p><i class=\"fas fa-user\"></i> By: "
         else []) ++
        ["\n            <button onclick=\"deleteEntity(\x27" ++ env.text (r.get "_id") ++
          "\x27)\" class=\"btn btn-danger btn-sm\">\n                " ++
          "<i class=\"fas fa-trash\"></i> Delete\n            </button>\n        </div>\n    "]),
      ?_⟩
    simp only [cardLines, optionalLine, hc, hf, ht1, ht2, if_true, join_append, join_cons,
      join_nil, Env.text_number, String.append_assoc, String.append_empty]
  · intro h1 h2 h3
    rw [createEntityCard_object]
    refine ⟨String.join
        (["\n        <div class=\"result-card\">\n            <h5>" ++ env.text (r.get "name") ++
          "</h5>\n            <p><i class=\"fas fa-envelope\"></i> " ++ env.text (r.get "email") ++
          "</p>\n    "] ++
        optionalLine env r "company" "<p><i class=\"fas fa-building\"></i> " ++
        optionalLine env r "organization" "<p><i class=\"fas fa-university\"></i> " ++
        optionalLine env r "phone" "<p><i class=\"fas fa-phone\"></i> "),
      String.join
        (optionalLine env r "cost_estimate" "<p><i class=\"fas fa-dollar-sign\"></i> Cost: $" ++
        optionalLine env r "registration_fee" "<p><i class=\"fas fa-dollar-sign\"></i> Fee: $" ++
        ["<p><i class=\"fas fa-calendar\"></i> Added: " ++ env.text (r.get "created_at") ++
          "</p>"] ++
        (if showCreatedBy then
          optionalLine env r "created_by" "<p><i class=\"fas fa-user\"></i> By: "
         else []) ++
        ["\n            <button onclick=\"deleteEntity(\x27" ++ env.text (r.get "_id") ++
          "\x27)\" class=\"btn btn-danger btn-sm\">\n                " ++
          "<i class=\"fas fa-trash\"></i> Delete\n            </button>\n        </div>\n    "]),
      ?_⟩
    simp only [cardLines, h1, h2, h3, if_true, join_append, join_cons,
      join_nil, String.append_assoc, String.append_empty,
      show optionalLine env r "partnership_type" "<p><i class=\"fas fa-handshake\"></i> " =
        ["<p><i class=\"fas fa-handshake\"></i> " ++ env.text (r.get "partnership_type") ++
          "</p>"] from by simp [optionalLine, h1],
      show optionalLine env r "service_type" "<p><i class=\"fas fa-cogs\"></i> " =
        ["<p><i class=\"fas fa-cogs\"></i> " ++ env.text (r.get "service_type") ++
          "</p>"] from by simp [optionalLine, h2],
      show optionalLine env r "participant_type" "<p><i class=\"fas fa-user-tag\"></i> " =
        ["<p><i class=\"fas fa-user-tag\"></i> " ++ env.text (r.get "participant_type") ++
          "</p>"] from by simp [optionalLine, h3]]

theorem C4_card_lines_witness :
    fullRecord.get "cost_estimate" = Prim.number (JSNumber.decimal false 100 0) ∧
      fullRecord.get "registration_fee" = Prim.number (JSNumber.decimal false 50 0) ∧
      ∃ before after, createEntityCard partners (Item.object fullRecord) true =
        Except.ok (before ++
          ("<p><i class=\"fas fa-dollar-sign\"></i> Cost: $" ++
            partners.numberToString (JSNumber.decimal false 100 0) ++ "</p>") ++
          ("<p><i class=\"fas fa-dollar-sign\"></i> Fee: $" ++
            partners.numberToString (JSNumber.decimal false 50 0) ++ "</p>") ++ after) :=
  ⟨rfl, rfl, (C4_card_lines partners fullRecord true).2.1 rfl rfl⟩

/-! ## The search results -/

theorem forEachCard_objects (env : Env) (flag : Bool) (records : List Record) (html : String) :
    forEachCard env (Value.array (records.map Item.object)) flag html =
      Except.ok (html ++
        String.join (records.map (fun r => String.join (cardLines env r flag)))) := by
  induction records generalizing html with
  | nil => simp [forEachCard, join_nil, pure, Except.pure]
  | cons r rs ih =>
    have ih1 := ih (html ++ String.join (cardLines env r flag))
    simp only [forEachCard, List.map_cons, List.foldlM_cons, createEntityCard_object, bind,
      Except.bind, pure, Except.pure] at ih1 ⊢
    rw [ih1, join_cons, String.append_assoc]

theorem opensWith_of_infix (d : Char) (p l : List Char) (h : ('<' :: d :: p) <:+: l) :
    opensWith d l = true := by
  induction l with
  | nil => simp at h
  | cons c rest ih =>
    rcases List.infix_cons_iff.mp h with hp | hi
    · obtain ⟨t, ht⟩ := hp
      simp only [List.cons_append, List.cons.injEq] at ht
      obtain ⟨hc, hr⟩ := ht
      subst hc
      simp [opensWith, ← hr]
    · simp [opensWith, ih hi]

theorem opensWith_append_of_not_mem (d : Char) (t b : List Char) (h : '<' ∉ t) :
    opensWith d (t ++ b) = opensWith d b := by
  induction t with
  | nil => rfl
  | cons c rest ih =>
    simp only [List.mem_cons, not_or] at h
    have hc : (c == '<') = false := by
      simpa using fun hc => h.1 hc.symm
    simp [opensWith, hc, ih h.2]

theorem noResults_no_div (t : String) (h : '<' ∉ t.data) :
    includes ("<p class=\"no-results\">No " ++ t ++ " found matching your search.</p>")
      "<div" = false := by
  simp only [includes, decide_eq_false_iff_not]
  intro hi
  have h1 := opensWith_of_infix 'd' _ _ hi
  have h2 : ("<p class=\"no-results\">No " ++ t ++ " found matching your search.</p>").data =
      "<p class=\"no-results\">No ".data ++
        (t.data ++ " found matching your search.</p>".data) := by
    simp [String.data_append]
  rw [h2] at h1
  have h3 : ∀ x : List Char, opensWith 'd' ("<p class=\"no-results\">No ".data ++ x) =
      opensWith 'd' x := by
    intro x
    simp [opensWith]
  rw [h3, opensWith_append_of_not_mem _ _ _ h] at h1
  revert h1
  decide

/-- C7: on the empty list `displaySearchResults` sets the results area to the
message `No {type} found matching your search.`, which holds no `div` element
(so no results grid and no card) when the type token contains no `<`.  On a
non-empty list of `n` records it sets the area to the heading followed by one
results grid holding exactly `n` cards, the `i`-th being what
`createEntityCard` returns for the `i`-th record with the creator not shown,
in the order of the list.  Nothing else on the page changes. -/
theorem C7_search_results (env : Env) (s : Page) (records : List Record) :
    displaySearchResults env (Value.array []) s =
        Except.ok { s with searchResults :=
          "<p class=\"no-results\">No " ++ env.ENTITY_TYPE ++
            " found matching your search.</p>" } ∧
      ('<' ∉ env.ENTITY_TYPE.data →
        includes ("<p class=\"no-results\">No " ++ env.ENTITY_TYPE ++
          " found matching your search.</p>") "<div" = false) ∧
      (records ≠ [] →
        ∃ cards : List String,
          cards.length = records.length ∧
          records.map (fun r => createEntityCard env (Item.object r) false) =
            cards.map Except.ok ∧
          displaySearchResults env (Value.array (records.map Item.object)) s =
            Except.ok { s with searchResults :=
              "<h4>Search Results:</h4><div class=\"results-grid\">" ++ String.join cards ++
                "</div>" }) := by
  refine ⟨?_, noResults_no_div env.ENTITY_TYPE, ?_⟩
  · simp [displaySearchResults, Value.get, strictEqualsZero, JSNumber.isZero,
      JSNumber.rounds_to_zero, bind, Except.bind, pure, Except.pure]
  · intro hne
    refine ⟨records.map (fun r => String.join (cardLines env r false)), by simp, ?_, ?_⟩
    · simp [createEntityCard_object]
    · have hlen : records.length ≠ 0 := by
        simpa using hne
      simp [displaySearchResults, Value.get, strictEqualsZero, JSNumber.isZero,
        JSNumber.rounds_to_zero, bind, Except.bind, pure, Except.pure, forEachCard_objects,
        hlen]

theorem C7_search_results_witness :
    includes "<p class=\"no-results\">No partners found matching your search.</p>" "<div" =
        false ∧
      ∃ cards : List String,
        cards.length = 2 ∧
        [zeroCost, fullRecord].map (fun r => createEntityCard partners (Item.object r) false) =
          cards.map Except.ok ∧
        displaySearchResults partners (Value.array ([zeroCost, fullRecord].map Item.object))
            freshPage =
          Except.ok { freshPage with searchResults :=
            "<h4>Search Results:</h4><div class=\"results-grid\">" ++ String.join cards ++
              "</div>" } :=
  ⟨(C7_search_results partners freshPage [zeroCost, fullRecord]).2.1 (by decide),
    (C7_search_results partners freshPage [zeroCost, fullRecord]).2.2 (by simp)⟩

/-! ## Add: the payload -/

theorem lookup_map_self {β : Type} (r : List (String × β)) (k : String) (v : β)
    (h : r.any (fun p => p.1 == k) = true) :
    (r.map (fun p => if p.1 == k then (k, v) else p)).lookup k = some v := by
  induction r with
  | nil => simp at h
  | cons p rest ih =>
    obtain ⟨a, b⟩ := p
    by_cases hak : a = k
    · subst hak
      simp [List.lookup_cons]
    · have hka : (k == a) = false := by simpa using fun h => hak h.symm
      have hrest : rest.any (fun p => p.1 == k) = true := by
        simpa [hak] using h
      simp only [List.map_cons, beq_iff_eq, hak, if_false, List.lookup_cons, hka]
      simpa using ih hrest

theorem lookup_map_other {β : Type} (r : List (String × β)) (k k1 : String) (v : β)
    (h : k1 ≠ k) :
    (r.map (fun p => if p.1 == k1 then (k1, v) else p)).lookup k = r.lookup k := by
  have hkk : (k == k1) = false := by simpa using fun e => h e.symm
  induction r with
  | nil => rfl
  | cons p rest ih =>
    obtain ⟨a, b⟩ := p
    by_cases hak1 : a = k1
    · subst hak1
      simp only [List.map_cons, beq_self_eq_true, if_true, List.lookup_cons, hkk, ih]
    · simp only [beq_iff_eq] at ih
      simp only [List.map_cons, beq_iff_eq, hak1, if_false, List.lookup_cons, ih]

theorem lookup_append_single_self {β : Type} (r : List (String × β)) (k : String) (v : β)
    (h : r.any (fun p => p.1 == k) = false) :
    (r ++ [(k, v)]).lookup k = some v := by
  induction r with
  | nil => simp [List.lookup_cons]
  | cons p rest ih =>
    obtain ⟨a, b⟩ := p
    simp only [List.any_cons, Bool.or_eq_false_iff, beq_eq_false_iff_ne, ne_eq] at h
    have hka : (k == a) = false := by simpa using fun e => h.1 e.symm
    simp only [List.cons_append, List.lookup_cons, hka]
    exact ih h.2

theorem lookup_append_single_other {β : Type} (r : List (String × β)) (k k1 : String) (v : β)
    (h : k1 ≠ k) :
    (r ++ [(k1, v)]).lookup k = r.lookup k := by
  have hkk : (k == k1) = false := by simpa using fun e => h e.symm
  induction r with
  | nil => simp [List.lookup_cons, hkk]
  | cons p rest ih =>
    obtain ⟨a, b⟩ := p
    simp only [List.cons_append, List.lookup_cons, ih]

theorem lookup_set_self (r : Record) (k : String) (v : Prim) (hk : k ≠ "__proto__") :
    (r.set k v).lookup k = some v := by
  unfold Record.set
  rw [if_neg hk]
  cases hany : r.any (fun p => p.1 == k)
  · simpa using lookup_append_single_self r k v hany
  · simpa using lookup_map_self r k v hany

theorem lookup_set_other (r : Record) (k k1 : String) (v : Prim) (h : k1 ≠ k) :
    (r.set k1 v).lookup k = r.lookup k := by
  unfold Record.set
  split
  · rfl
  · split
    · exact lookup_map_other r k k1 v h
    · exact lookup_append_single_other r k k1 v h

theorem lookup_stringify (r : Record) (k : String) (p : Prim) (j : JSONValue)
    (h : r.lookup k = some p) (hj : stringifyValue p = some j) :
    (stringify r).lookup k = some j := by
  induction r with
  | nil => simp [List.lookup] at h
  | cons q rest ih =>
    obtain ⟨a, b⟩ := q
    cases hka : (k == a)
    · simp only [List.lookup, hka] at h
      have ih1 := ih h
      unfold stringify at ih1 ⊢
      simp only [List.filterMap_cons]
      cases hb : stringifyValue b
      · simpa using ih1
      · simp [List.lookup, hka, ih1]
    · simp only [List.lookup, hka, Option.some.injEq] at h
      subst h
      unfold stringify
      simp [List.filterMap_cons, hj, List.lookup, hka]

theorem isMoneyKey_ne_proto (k : String) (hk : isMoneyKey k = true) : k ≠ "__proto__" := by
  intro h
  subst h
  revert hk
  decide

theorem entityData_lookup (entries : List (String × String)) (k : String)
    (hk : isMoneyKey k = true) (h : ∃ v, (k, v) ∈ entries ∧ v ≠ "") :
    ∃ v, (k, v) ∈ entries ∧ v ≠ "" ∧
      (entityData entries).lookup k = some (Prim.number (parseFloat v)) := by
  induction entries using List.reverseRecOn with
  | nil => simp at h
  | append_singleton init e ih =>
    obtain ⟨k1, v1⟩ := e
    have hfold : entityData (init ++ [(k1, v1)]) =
        (if (Prim.string v1).truthy then
          if includes k1 "fee" || includes k1 "amount" || includes k1 "cost" then
            (entityData init).set k1 (Prim.number (parseFloat v1))
          else (entityData init).set k1 (Prim.string v1)
        else entityData init) := by
      simp [entityData, List.foldl_append]
    by_cases hlast : k1 = k ∧ v1 ≠ ""
    · obtain ⟨hk1, hv1⟩ := hlast
      subst hk1
      refine ⟨v1, by simp, hv1, ?_⟩
      have hm : (includes k1 "fee" || includes k1 "amount" || includes k1 "cost") = true := hk
      have ht : (Prim.string v1).truthy = true := by simp [Prim.truthy, hv1]
      rw [hfold, if_pos ht, if_pos hm]
      exact lookup_set_self _ _ _ (isMoneyKey_ne_proto k1 hk)
    · have hin : ∃ v, (k, v) ∈ init ∧ v ≠ "" := by
        obtain ⟨v, hv, hne⟩ := h
        rcases List.mem_append.mp hv with hi | hl
        · exact ⟨v, hi, hne⟩
        · simp only [List.mem_singleton, Prod.mk.injEq] at hl
          exact absurd ⟨hl.1.symm, hl.2 ▸ hne⟩ hlast
      obtain ⟨v, hv, hne, hlook⟩ := ih hin
      refine ⟨v, List.mem_append.mpr (Or.inl hv), hne, ?_⟩
      rw [hfold]
      by_cases ht : (Prim.string v1).truthy = true
      · have hk1 : k1 ≠ k := by
          intro e
          apply hlast
          refine ⟨e, ?_⟩
          intro e1
          subst e1
          simp [Prim.truthy] at ht
        rw [if_pos ht]
        split <;> rw [lookup_set_other _ _ _ _ hk1] <;> exact hlook
      · rw [if_neg ht]
        exact hlook

/-- C1, as stated, fails: with the text `abc` in the control
`registration_fee`, whose name contains `fee`, the payload of the add request
carries `null` for that field. -/
theorem C1_text_fee_is_null :
    isMoneyKey "registration_fee" = true ∧
      newEvents feePage (addEntity partners feePage) =
        [Event.fetch ⟨"/api/partners/add", "POST", [("Content-Type", "application/json")],
          some [("name", JSONValue.string "Acme"), ("registration_fee", JSONValue.null)]⟩] := by
  decide

/-- C1, amended: `addEntity` issues one request, whose payload is built from
the form.  For every form field whose name contains `fee`, `amount` or `cost`
and whose value is non-empty text, the payload value for that name is what
`parseFloat` makes of the text entered for that name (of one of the non-empty
texts when several controls share the name): a number when `parseFloat` reads a
finite Number, `null` otherwise, in particular when the text has no numeric
prefix.  It is never text. -/
theorem C1_payload_of_money_field (env : Env) (s : Page) (f : FormField)
    (hf : f ∈ s.addEntityForm) (hk : isMoneyKey f.name = true) (hv : f.value ≠ "") :
    newEvents s (addEntity env s) = [Event.fetch (addRequest env s.addEntityForm)] ∧
      ∃ g ∈ s.addEntityForm, g.name = f.name ∧ g.value ≠ "" ∧
        (stringify (entityData (formData s.addEntityForm))).lookup f.name =
          some (numberJSON (parseFloat g.value)) ∧
        (scanStrDecimal (trimStart g.value.data) = none →
          (stringify (entityData (formData s.addEntityForm))).lookup f.name =
            some JSONValue.null) ∧
        ∀ t, (stringify (entityData (formData s.addEntityForm))).lookup f.name ≠
          some (JSONValue.string t) := by
  refine ⟨newEvents_append _ _ _ (by simp [addEntity, Page.fetch, addRequest]), ?_⟩
  have hex : ∃ v, (f.name, v) ∈ formData s.addEntityForm ∧ v ≠ "" :=
    ⟨f.value, by simpa [formData] using ⟨f, hf, rfl, rfl⟩, hv⟩
  obtain ⟨v, hmem, hne, hlook⟩ := entityData_lookup _ _ hk hex
  simp only [formData, List.mem_map, Prod.mk.injEq] at hmem
  obtain ⟨g, hg, hgn, hgv⟩ := hmem
  subst hgv
  have hj : (stringify (entityData (formData s.addEntityForm))).lookup f.name =
      some (numberJSON (parseFloat g.value)) :=
    lookup_stringify _ _ _ _ hlook rfl
  refine ⟨g, hg, hgn, hne, hj, ?_, ?_⟩
  · intro hnone
    rw [hj]
    simp [numberJSON, parseFloat, hnone, JSNumber.isFinite]
  · intro t
    rw [hj]
    unfold numberJSON
    repeat' split
    all_goals simp

theorem C1_payload_of_money_field_witness :
    (stringify (entityData (formData feePage.addEntityForm))).lookup "registration_fee" =
      some JSONValue.null :=
  by
    obtain ⟨g, hg, hgn, _, _, hnull, _⟩ :=
      (C1_payload_of_money_field partners feePage ⟨"registration_fee", "", "abc"⟩
        (by decide) (by decide) (by decide)).2
    have hgv : g = ⟨"registration_fee", "", "abc"⟩ := by
      simp only [feePage, List.mem_cons, List.mem_singleton, List.not_mem_nil, or_false] at hg
      rcases hg with h | h
      · subst h; simp at hgn
      · exact h
    subst hgv
    exact hnull (by decide)


/-! ## The cached list -/

theorem displaySearchResults_currentEntities (env : Env) (entities : Value) (s s1 : Page)
    (h : displaySearchResults env entities s = Except.ok s1) :
    s1.currentEntities = s.currentEntities := by
  simp only [displaySearchResults, bind, Except.bind, pure, Except.pure] at h
  split at h
  · cases h
  · split at h
    · cases h; rfl
    · split at h
      · cases h
      · cases h; rfl

theorem displayEntitiesList_currentEntities (env : Env) (entities : Value) (s s1 : Page)
    (h : displayEntitiesList env entities s = Except.ok s1) :
    s1.currentEntities = s.currentEntities := by
  simp only [displayEntitiesList, bind, Except.bind, pure, Except.pure] at h
  split at h
  · cases h
  · split at h
    · cases h; rfl
    · split at h
      · cases h
      · cases h; rfl

theorem loadEntityCount_resume_currentEntities (env : Env) (o : Outcome) (s : Page) :
    (loadEntityCount_resume env o s).currentEntities = s.currentEntities := by
  unfold loadEntityCount_resume
  repeat' split
  all_goals rfl

theorem showAlert_currentEntities (env : Env) (message : Prim) (type : String) (s : Page) :
    (showAlert env message type s).1.currentEntities = s.currentEntities := by
  rw [showAlert_fst]; rfl

theorem searchEntities_resume_currentEntities (env : Env) (o : Outcome) (s : Page) :
    (searchEntities_resume env o s).currentEntities = s.currentEntities := by
  simp only [searchEntities_resume, showAlert_fst]
  split
  · rfl
  · split
    · rfl
    · next h => exact displaySearchResults_currentEntities _ _ _ _ h

theorem addEntity_resume_currentEntities (env : Env) (o : Outcome) (s : Page) :
    (addEntity_resume env o s).currentEntities = s.currentEntities := by
  simp only [addEntity_resume, showAlert_eq]
  split
  · rfl
  · split
    · rfl
    · split
      · by_cases hb : env.hasCloseAlert
            (banner (env.text (Prim.string (env.ENTITY_NAME ++ " added successfully!")))) = true
        · simp only [hb, if_true]; rfl
        · simp only [hb, if_false]; rfl
      · split
        · rfl
        · next message _ =>
          by_cases hb : env.hasCloseAlert (banner (env.text (message.or
              (Prim.string ("Error adding " ++ env.toLowerCase env.ENTITY_NAME))))) = true
          · simp only [hb, if_true]; rfl
          · simp only [hb, if_false]; rfl

theorem deleteEntity_resume_currentEntities (env : Env) (o : Outcome) (s : Page) :
    (deleteEntity_resume env o s).currentEntities = s.currentEntities := by
  simp only [deleteEntity_resume, showAlert_eq]
  split
  · rfl
  · split
    · rfl
    · split
      · by_cases hb : env.hasCloseAlert
            (banner (env.text (Prim.string (env.ENTITY_NAME ++ " deleted successfully!")))) = true
        · simp only [hb, if_true]
          split
          · rfl
          · split <;> rfl
        · simp only [hb, if_false]; rfl
      · split
        · rfl
        · next message _ =>
          by_cases hb : env.hasCloseAlert (banner (env.text (message.or
              (Prim.string ("Error deleting " ++ env.toLowerCase env.ENTITY_NAME))))) = true
          · simp only [hb, if_true]; rfl
          · simp only [hb, if_false]; rfl

theorem step_currentEntities (env : Env) (a : Action) (s : Page) :
    (step env a s).currentEntities = s.currentEntities ∨ listLoaded s a := by
  cases a with
  | loadEntityCount => exact Or.inl rfl
  | searchEntities =>
    left; simp only [step, searchEntities, showAlert_fst]; split <;> rfl
  | addEntity => exact Or.inl rfl
  | loadAllEntities => exact Or.inl rfl
  | deleteEntity entityId confirmed =>
    left; simp only [step, deleteEntity]; split <;> rfl
  | clearSearch => exact Or.inl rfl
  | keypress key =>
    left; simp only [step, searchEntities, showAlert_fst]; repeat' split
    all_goals rfl
  | typeSearch text => exact Or.inl rfl
  | typeField name text => exact Or.inl rfl
  | settle i o =>
    simp only [step, settle]
    cases hget : s.pending.get? i with
    | none => exact Or.inl rfl
    | some k =>
      cases k with
      | loadEntityCount =>
        left; simp only [resume]; rw [loadEntityCount_resume_currentEntities]
      | searchEntities =>
        left; simp only [resume]; rw [searchEntities_resume_currentEntities]
      | addEntity =>
        left; simp only [resume]; rw [addEntity_resume_currentEntities]
      | deleteEntity =>
        left; simp only [resume]; rw [deleteEntity_resume_currentEntities]
      | loadAllEntities =>
        cases o with
        | error e =>
          left
          simp only [resume, loadAllEntities_resume, showAlert_fst]
          rfl
        | ok entities => exact Or.inr ⟨i, entities, rfl, hget⟩

theorem run_append_singleton (env : Env) (s : Page) (actions : List Action) (a : Action) :
    run env s (actions ++ [a]) = step env a (run env s actions) := by
  simp [run, List.foldl_append]

theorem cache_invariant (env : Env) (s0 : Page) (actions : List Action) (h0 : s0.initial) :
    (run env s0 actions).currentEntities = Value.array [] ∨
      ∃ before b after, actions = before ++ b :: after ∧ listLoaded (run env s0 before) b := by
  induction actions using List.reverseRecOn with
  | nil => exact Or.inl h0.1
  | append_singleton init a ih =>
    rw [run_append_singleton]
    rcases step_currentEntities env a (run env s0 init) with hsame | hload
    · rcases ih with hnil | ⟨before, b, after, hact, hl⟩
      · left; rw [hsame]; exact hnil
      · right; exact ⟨before, b, after ++ [a], by simp [hact], hl⟩
    · right; exact ⟨init, a, [], by simp, hload⟩

theorem list_url_ne_count_url (t : String) :
    "/api/" ++ t ++ "/list" ≠ "/api/" ++ t ++ "/count" := by
  intro h
  have hd := congrArg String.data h
  simp only [String.data_append, List.append_assoc] at hd
  have h2 := List.append_cancel_left (List.append_cancel_left hd)
  revert h2
  decide

theorem no_reload_of_empty_cache (env : Env) (s : Page) (a : Action)
    (hc : s.currentEntities = Value.array []) (hd : deleteSucceeded s a) :
    Event.fetch (listRequest env) ∉ newEvents s (step env a s) := by
  obtain ⟨i, result, success, rfl, hget, hsucc, htruthy⟩ := hd
  have hstep : step env (Action.settle i (Except.ok result)) s =
      deleteEntity_resume env (Except.ok result)
        { s with pending := s.pending.eraseIdx i } := by
    simp only [step, settle, hget, resume]
  have hlen : Value.get (Value.array []) "length" =
      Except.ok (Prim.number (JSNumber.decimal false 0 0)) := rfl
  have hpos : greaterThanZero (Prim.number (JSNumber.decimal false 0 0)) = false := by
    decide
  by_cases hb : env.hasCloseAlert
      (banner (env.text (Prim.string (env.ENTITY_NAME ++ " deleted successfully!")))) = true
  · have hlog : (step env (Action.settle i (Except.ok result)) s).log = s.log ++
        [Event.alert "alert alert-success"
          (banner (env.ENTITY_NAME ++ " deleted successfully!")),
         Event.fetch ⟨"/api/" ++ env.ENTITY_TYPE ++ "/count", "GET", [], none⟩] := by
      rw [hstep]
      simp only [deleteEntity_resume, hsucc, htruthy, if_true, showAlert_eq, hb]
      simp only [loadEntityCount, Page.emit, Page.fetch, hc, hlen, hpos,
        Env.text_string, Bool.false_eq_true, if_false, List.append_assoc,
        List.singleton_append]
      rfl
    rw [newEvents_append _ _ _ hlog]
    simp only [List.mem_cons, List.mem_singleton, List.not_mem_nil, or_false, listRequest,
      Event.fetch.injEq, Request.mk.injEq, false_or, reduceCtorEq]
    intro h
    exact list_url_ne_count_url _ h.1
  · have hlog : (step env (Action.settle i (Except.ok result)) s).log = s.log ++
        [Event.alert "alert alert-success"
          (banner (env.ENTITY_NAME ++ " deleted successfully!")),
         Event.consoleError ("Error deleting " ++ env.toLowerCase env.ENTITY_NAME ++ ":"),
         Event.alert "alert alert-error"
          (banner ("Error deleting " ++ env.toLowerCase env.ENTITY_NAME))] := by
      rw [hstep]
      simp only [deleteEntity_resume, hsucc, htruthy, if_true, showAlert_eq, hb]
      simp only [Page.emit, Env.text_string, Bool.false_eq_true, if_false, List.append_assoc,
        List.singleton_append]
      rfl
    rw [newEvents_append _ _ _ hlog]
    simp

/-- C6: in a session started on a freshly loaded page (empty cache, nothing
suspended) and continued by any sequence of actions, a successful
`deleteEntity` issues the list request only if, earlier in the session, a list
request of `loadAllEntities` settled with a parsed body; and in any state, a
step changes `currentEntities` only if it is such a settling list request. -/
theorem C6_reload_only_after_list_load (env : Env) (s0 : Page) (actions : List Action)
    (a : Action) (h0 : s0.initial) :
    (deleteSucceeded (run env s0 actions) a →
      Event.fetch (listRequest env) ∈
        newEvents (run env s0 actions) (step env a (run env s0 actions)) →
      ∃ before b after, actions = before ++ b :: after ∧
        listLoaded (run env s0 before) b) ∧
    (∀ s : Page, (step env a s).currentEntities ≠ s.currentEntities → listLoaded s a) := by
  constructor
  · intro hd hmem
    rcases cache_invariant env s0 actions h0 with hnil | hex
    · exact absurd hmem (no_reload_of_empty_cache env _ a hnil hd)
    · exact hex
  · intro s hne
    rcases step_currentEntities env a s with hsame | hload
    · exact absurd hsame hne
    · exact hload

set_option maxRecDepth 20000 in
theorem C6_reload_only_after_list_load_witness :
    ∃ before b after,
      [Action.loadAllEntities,
        Action.settle 0 (Except.ok (Value.array [Item.object zeroCost])),
        Action.deleteEntity "42" true] = before ++ b :: after ∧
      listLoaded (run partners freshPage before) b :=
  (C6_reload_only_after_list_load partners freshPage
    [Action.loadAllEntities,
      Action.settle 0 (Except.ok (Value.array [Item.object zeroCost])),
      Action.deleteEntity "42" true]
    (Action.settle 0 (Except.ok (Value.object [("success", Prim.bool true)])))
    ⟨rfl, rfl, rfl⟩).1
    ⟨0, Value.object [("success", Prim.bool true)], Prim.bool true, rfl, rfl, rfl, rfl⟩
    (by decide)

/-! ## Currency -/

theorem digitChar_isDigit (k : Nat) (h : k < 10) : (Nat.digitChar k).isDigit = true := by
  interval_cases k <;> rfl

theorem toDigitsCore_digits (fuel n : Nat) (ds : List Char)
    (h : ∀ c ∈ ds, c.isDigit = true) :
    ∀ c ∈ Nat.toDigitsCore 10 fuel n ds, c.isDigit = true := by
  induction fuel generalizing n ds with
  | zero => simpa [Nat.toDigitsCore] using h
  | succ fuel ih =>
    have hd : ∀ c ∈ Nat.digitChar (n % 10) :: ds, c.isDigit = true := by
      intro c hc
      rcases List.mem_cons.mp hc with rfl | hc
      · exact digitChar_isDigit _ (Nat.mod_lt _ (by norm_num))
      · exact h c hc
    simp only [Nat.toDigitsCore]
    split
    · exact hd
    · exact ih _ _ hd

theorem toDigitsCore_ne_nil (fuel n : Nat) (ds : List Char) (h : ds ≠ []) :
    Nat.toDigitsCore 10 fuel n ds ≠ [] := by
  induction fuel generalizing n ds with
  | zero => simpa [Nat.toDigitsCore] using h
  | succ fuel ih =>
    simp only [Nat.toDigitsCore]
    split
    · simp
    · exact ih _ _ (by simp)

theorem toDigits_ne_nil (n : Nat) : Nat.toDigits 10 n ≠ [] := by
  simp only [Nat.toDigits, Nat.toDigitsCore]
  split
  · simp
  · exact toDigitsCore_ne_nil _ _ _ (by simp)

theorem groupReversed_chars (l : List Char) (h : ∀ c ∈ l, c.isDigit = true) :
    ∀ c ∈ groupReversed l, c.isDigit = true ∨ c = ',' := by
  induction l using groupReversed.induct with
  | case1 a b c d rest ih =>
    intro x hx
    simp only [groupReversed, List.mem_cons] at hx
    rcases hx with rfl | rfl | rfl | rfl | hx
    · exact Or.inl (h _ (by simp))
    · exact Or.inl (h _ (by simp))
    · exact Or.inl (h _ (by simp))
    · exact Or.inr rfl
    · exact ih (fun c hc => h c (by simp at hc ⊢; tauto)) x hx
  | case2 ds hds =>
    intro x hx
    rw [groupReversed] at hx
    · exact Or.inl (h x hx)
    · exact hds

theorem groupReversed_ne_nil (l : List Char) (h : l ≠ []) : groupReversed l ≠ [] := by
  induction l using groupReversed.induct with
  | case1 a b c d rest ih => simp [groupReversed]
  | case2 ds hds =>
    rw [groupReversed]
    · exact h
    · exact hds

theorem grouped_chars (n : Nat) :
    grouped n ≠ [] ∧ ∀ c ∈ grouped n, c.isDigit = true ∨ c = ',' := by
  constructor
  · simp only [grouped, ne_eq, List.reverse_eq_nil_iff]
    exact groupReversed_ne_nil _ (by simpa using toDigits_ne_nil n)
  · intro c hc
    simp only [grouped, List.mem_reverse] at hc
    refine groupReversed_chars _ ?_ c hc
    intro x hx
    simp only [List.mem_reverse] at hx
    exact toDigitsCore_digits _ _ [] (by simp) x hx

theorem truthy_of_isPositive (amount : Prim) (h : (toNumber amount).isPositive = true) :
    amount.truthy = true := by
  cases amount with
  | undefined => simp [toNumber, JSNumber.isPositive] at h
  | null => revert h; decide
  | bool b => cases b <;> revert h <;> decide
  | number n =>
    cases n with
    | nan => simp [toNumber, JSNumber.isPositive] at h
    | infinity neg => rfl
    | decimal neg m e =>
      simp only [toNumber, JSNumber.isPositive, Bool.and_eq_true, Bool.not_eq_true'] at h
      simp [Prim.truthy, JSNumber.isZero, h.2]
  | string s =>
    by_cases hs : s = ""
    · subst hs; revert h; decide
    · simp [Prim.truthy, hs]

theorem formatUSD_shape (x : JSNumber) (hp : x.isPositive = true) (hf : x.isFinite = true) :
    ∃ whole d1 d2, formatUSD x = String.mk ('$' :: whole ++ ['.', d1, d2]) ∧
      whole ≠ [] ∧ (∀ c ∈ whole, c.isDigit = true ∨ c = ',') ∧
      d1.isDigit = true ∧ d2.isDigit = true := by
  cases x with
  | nan => simp [JSNumber.isFinite] at hf
  | infinity neg => simp [JSNumber.isFinite] at hf
  | decimal neg m e =>
    simp only [JSNumber.isFinite, Bool.not_eq_true'] at hf
    simp only [JSNumber.isPositive, Bool.and_eq_true, Bool.not_eq_true'] at hp
    have hneg : neg = false := hp.1
    subst hneg
    refine ⟨grouped (roundHalfExpand m (e + 2) / 100),
      Nat.digitChar (roundHalfExpand m (e + 2) % 100 / 10),
      Nat.digitChar (roundHalfExpand m (e + 2) % 10), ?_, (grouped_chars _).1,
      (grouped_chars _).2, ?_, ?_⟩
    · simp only [formatUSD, hf, Bool.false_eq_true, if_false]
      apply String.ext
      simp [String.data_append]
    · exact digitChar_isDigit _ (by omega)
    · exact digitChar_isDigit _ (Nat.mod_lt _ (by norm_num))

/-- C10: `formatCurrency` of a falsy amount (absent, the empty string, a zero,
and every other falsy value) is the empty string; `formatCurrency` of an amount
whose numeric value is positive and finite is a dollar sign, a non-empty
integer part of digits and grouping commas, a decimal point and exactly two
digits. -/
theorem C10_formatCurrency :
    (∀ amount : Prim, amount.truthy = false → formatCurrency amount = "") ∧
      formatCurrency Prim.undefined = "" ∧
      formatCurrency (Prim.string "") = "" ∧
      formatCurrency (Prim.number JSNumber.zero) = "" ∧
      (∀ amount : Prim, (toNumber amount).isPositive = true →
        (toNumber amount).isFinite = true →
        ∃ whole d1 d2, formatCurrency amount = String.mk ('$' :: whole ++ ['.', d1, d2]) ∧
          whole ≠ [] ∧ (∀ c ∈ whole, c.isDigit = true ∨ c = ',') ∧
          d1.isDigit = true ∧ d2.isDigit = true) := by
  refine ⟨?_, rfl, rfl, rfl, ?_⟩
  · intro amount h
    simp [formatCurrency, h]
  · intro amount hp hf
    have ht := truthy_of_isPositive amount hp
    have hfc : formatCurrency amount = formatUSD (toNumber amount) := by
      simp [formatCurrency, ht]
    rw [hfc]
    exact formatUSD_shape _ hp hf

theorem C10_formatCurrency_witness :
    formatCurrency (Prim.number JSNumber.zero) = "" ∧
      formatCurrency (Prim.number (JSNumber.decimal false 12345675 (-4))) = "$1,234.57" ∧
      ∃ whole d1 d2,
        formatCurrency (Prim.number (JSNumber.decimal false 12345675 (-4))) =
          String.mk ('$' :: whole ++ ['.', d1, d2]) ∧
        whole ≠ [] ∧ (∀ c ∈ whole, c.isDigit = true ∨ c = ',') ∧
        d1.isDigit = true ∧ d2.isDigit = true :=
  ⟨C10_formatCurrency.1 _ (by decide), by decide,
    C10_formatCurrency.2.2.2.2 (Prim.number (JSNumber.decimal false 12345675 (-4)))
      (by decide) (by decide)⟩

end Sponsor
